import Mathlib

/-!
# Wear Your Barcode (`src/c/wyb.c`): the protocol engine

A shallow embedding of the message handler `app_received_msg`, of the menu and
window callbacks that change the engine's variables, and of `send_request`.

* The file-scope variables of `wyb.c` are the fields of `AppState`.
* A received dictionary is a list of tuples; a tuple is a key and its payload
  bytes.  Every read of a payload byte goes through `Tuple.bytes`, which
  reduces each element modulo 256 (the payload is `uint8_t[]`).
* C `int` variables are `Int`; the places where the C code converts to a
  narrower or computes in a fixed width carry the reduction explicitly
  (`toUint16`, `toInt32`).
* A handler returns `Except Fault (AppState × List Request)`: the new variables
  and the calls of `send_request` it made, in order, or the first step at which
  the C code leaves defined behaviour (a dereference of a `NULL` tuple, a read
  past the payload, a write outside an array).
* Calls into the presentation layer (`window_stack_push`, `menu_layer_reload_data`,
  `layer_mark_dirty`, `vibes_*_pulse`, `APP_LOG`) change none of the engine's
  variables and are left out; `malloc` is taken to succeed.
-/

namespace Wyb

/-! ## Constants of `wyb.c` -/

abbrev WATCHAPP_VERSION_NUMBER : Nat := 30
abbrev NAME_BUFFER_SIZE : Nat := 10
abbrev BYTES_PER_ROW : Nat := 16
abbrev BYTES_PER_SCREEN : Nat := BYTES_PER_ROW * 168

abbrev CMD_KEY : Nat := 0x0
abbrev REQUEST_BARCODE_LIST_LENGTH : Nat := 0x10
abbrev SEND_BARCODE_NAMES : Nat := 0x11
abbrev BARCODE_NAME : Nat := 0x12
abbrev SEND_BARCODE_NAME : Nat := 0x13
abbrev SEND_BARCODE : Nat := 0x14
abbrev BARCODE_IMAGE_BYTES : Nat := 0x15
abbrev BARCODE_IMAGE : Nat := 0x16
abbrev BARCODE_IMAGE_DONE : Nat := 0x17
abbrev BARCODE_NEXT_CHUNK : Nat := 0x18
abbrev BARCODE_FORMAT : Nat := 0x19
abbrev REREAD_BARCODE_LIST : Nat := 0x21
abbrev DISPLAY_BARCODE : Nat := 0x22
abbrev BARCODE_ERROR : Nat := 0xFF

abbrev STATE_NONE : Nat := 0x00
abbrev STATE_WAITING_BARCODE_LIST_LENGTH : Nat := 0x01
abbrev STATE_WAITING_BARCODE_NAMES : Nat := 0x02
abbrev STATE_RECEIVING_INITIAL_BARCODE_NAMES : Nat := 0x03
abbrev STATE_RECEIVING_SINGLE_NAME : Nat := 0x04
abbrev STATE_RECEIVING_BARCODE : Nat := 0x05
abbrev STATE_ERROR : Nat := 0x06

/-! ## Machine arithmetic -/

/-- Conversion of an `int` to `uint16_t`. -/
def toUint16 (x : Int) : Int := x % 65536

/-- The value of a 32-bit two's complement `int` computation whose exact result is `x`. -/
def toInt32 (x : Int) : Int := (x + 2147483648) % 4294967296 - 2147483648

/-! ## Data model -/

/-- The points at which `wyb.c` leaves defined behaviour. -/
inductive Fault where
  /-- `tuple->length` or `tuple->value` read through a `NULL` result of `dict_find`. -/
  | nullTuple (key : Nat)
  /-- A read of `tuple->value` past `tuple->length` bytes. -/
  | payloadRead (key : Nat) (length : Nat)
  /-- `strcpy`/`strcat` from a payload that holds no terminating zero byte. -/
  | unterminated (key : Nat)
  /-- A write to `nameBuffer[i]`/`formatBuffer[i]` with `i` outside `0..9`. -/
  | nameBufferIndex (i : Int)
  /-- A `memcpy` of `len` bytes to `barcodeImageData+offset` that leaves the allocation. -/
  | imageWrite (offset : Int) (len : Nat)
  /-- A `memcpy` to `barcodeImageData` while no image buffer is allocated. -/
  | imageUnallocated
  /-- `free(msg)` of a block that was already released. -/
  | doubleFree
  deriving DecidableEq, Repr

/-- One `Tuple` of a received dictionary: its key and its payload (`length` bytes). -/
structure Tuple where
  key : Nat
  data : List Nat
  deriving DecidableEq, Repr

/-- The received dictionary (`DictionaryIterator *received`). -/
abbrev Dict := List Tuple

/-- The payload as bytes: `tuple->value->data[i]` for `i < tuple->length`. -/
def Tuple.bytes (t : Tuple) : List Nat := t.data.map (fun b => b % 256)

/-- The field `tuple->length`. -/
def Tuple.length (t : Tuple) : Nat := t.data.length

/-- The SDK lookup `dict_find`: the first tuple with the key, or `NULL`. -/
def dict_find (received : Dict) (key : Nat) : Option Tuple :=
  received.find? (fun t => t.key == key)

/-- The read `tuple->value->uint8`. -/
def Tuple.uint8 (t : Tuple) : Except Fault Nat :=
  match t.bytes with
  | b0 :: _ => .ok b0
  | [] => .error (.payloadRead t.key t.length)

/-- The read `tuple->value->uint16` (little-endian). -/
def Tuple.uint16 (t : Tuple) : Except Fault Nat :=
  match t.bytes with
  | b0 :: b1 :: _ => .ok (b0 + 256 * b1)
  | _ => .error (.payloadRead t.key t.length)

/-- The string `tuple->value->cstring` as `strcpy`/`strcat` read it: the bytes
before the first zero byte. -/
def Tuple.cstring (t : Tuple) : Except Fault (List Nat) :=
  if 0 ∈ t.bytes then .ok (t.bytes.takeWhile (fun b => b != 0))
  else .error (.unterminated t.key)

/-- The pointer `char* msg` and the block it points to. -/
inductive MsgPtr where
  | null
  | live (str : List Nat)
  | freed (str : List Nat)
  deriving DecidableEq, Repr

/-- One call `send_request(req, data)`, its arguments as the callee receives them. -/
structure Request where
  req : Nat
  data : Nat
  deriving DecidableEq, Repr

/-- The file-scope variables of `wyb.c` that the engine reads or writes. -/
structure AppState where
  state : Nat
  barcodeNameCount : Int
  numBarcodes : Int
  nameBuffer : List (Option (List Nat))
  formatBuffer : List (Option (List Nat))
  nameBufferPtr : Int
  /-- The block `barcodeImageData` points to; `none` while none is allocated. -/
  barcodeImageData : Option (List Nat)
  firstRow : Int
  justSelected : Int
  autoDisplay : Int
  transferDone : Bool
  error : Bool
  msg : MsgPtr
  deriving DecidableEq, Repr

/-- The characters of the literal `"ERROR: "`. -/
def errorPrefix : List Nat := [69, 82, 82, 79, 82, 58, 32]

/-! ## `send_request` and the refresh -/

/-- The function `send_request(uint8_t req, uint16_t data)`: one request handed
to the outbox, the arguments converted to the parameter types. -/
def send_request (req : Nat) (data : Int) : List Request :=
  [{ req := req % 256, data := (toUint16 data).toNat }]

/-- The callback `mainMenu_select_long_click`: a menu reload. -/
def mainMenu_select_long_click (s : AppState) : AppState × List Request :=
  ({ s with justSelected := -1, nameBufferPtr := 0,
            state := STATE_WAITING_BARCODE_LIST_LENGTH },
   send_request REQUEST_BARCODE_LIST_LENGTH WATCHAPP_VERSION_NUMBER)

/-! ## `app_received_msg` -/

/-- The element index of `nameBuffer[i]` and `formatBuffer[i]` (arrays of
`NAME_BUFFER_SIZE` pointers): `i` itself when it lies inside the array. -/
def slotIndex (i : Int) : Except Fault Nat :=
  if 0 ≤ i ∧ i < (NAME_BUFFER_SIZE : Int) then .ok i.toNat else .error (.nameBufferIndex i)

/-- Lines 193-197 and 216-220 of `app_received_msg` (the same five statements):
copy the name into `nameBuffer[nameBufferPtr]`, look up `BARCODE_FORMAT` and
copy the format into `formatBuffer[nameBufferPtr]`. -/
def storeName (s : AppState) (received : Dict) (tuple : Tuple) : Except Fault AppState := do
  let i ← slotIndex s.nameBufferPtr
  let name ← tuple.cstring
  match dict_find received BARCODE_FORMAT with
  | none => .error (.nullTuple BARCODE_FORMAT)
  | some tuple =>
    let format ← tuple.cstring
    pure { s with nameBuffer := s.nameBuffer.set i (some name),
                  formatBuffer := s.formatBuffer.set i (some format) }

/-- The statement `memcpy(barcodeImageData+offset, &(tuple->value->data[3]), tuple->length-3)`. -/
def memcpyImage (s : AppState) (offset : Int) (tuple : Tuple) : Except Fault AppState :=
  match s.barcodeImageData with
  | none => .error .imageUnallocated
  | some image =>
    if tuple.length < 3 then .error (.payloadRead tuple.key tuple.length)
    else
      let src := tuple.bytes.drop 3
      if 0 ≤ offset ∧ offset + src.length ≤ image.length then
        let written := image.take offset.toNat ++ src ++ image.drop (offset.toNat + src.length)
        .ok { s with barcodeImageData := some written }
      else .error (.imageWrite offset src.length)

/-- Lines 104-111: clear `error`, and on a `BARCODE_ERROR` tuple build `msg` and
force `STATE_ERROR`. -/
def errorCheck (s : AppState) (received : Dict) : Except Fault AppState :=
  let s := { s with error := false }
  match dict_find received BARCODE_ERROR with
  | some tuple => do
    let str ← tuple.cstring
    pure { s with msg := MsgPtr.live (errorPrefix ++ str), state := STATE_ERROR }
  | none => pure s

/-- The branch `case STATE_NONE`. -/
def caseNone (s : AppState) (received : Dict) : Except Fault (AppState × List Request) :=
  match dict_find received CMD_KEY with
  | some tuple => do
    let value ← tuple.uint8
    if value = REREAD_BARCODE_LIST then pure (mainMenu_select_long_click s)
    else pure (s, [])
  | none =>
    match dict_find received DISPLAY_BARCODE with
    | some tuple => do
      let value ← tuple.uint8
      if (value : Int) < s.numBarcodes then
        pure ({ s with state := STATE_RECEIVING_BARCODE, justSelected := value },
              send_request SEND_BARCODE value)
      else pure (s, [])
    | none => pure (s, [])

/-- The branch `case STATE_ERROR`. -/
def caseError (s : AppState) : Except Fault (AppState × List Request) :=
  match s.msg with
  | .null => pure ({ s with error := true, state := STATE_NONE }, [])
  | .live str => pure ({ s with error := true, msg := MsgPtr.freed str, state := STATE_NONE }, [])
  | .freed _ => .error .doubleFree

/-- The branch `case STATE_WAITING_BARCODE_LIST_LENGTH`. -/
def caseListLength (s : AppState) (received : Dict) : Except Fault (AppState × List Request) :=
  match dict_find received REQUEST_BARCODE_LIST_LENGTH with
  | some tuple => do
    let value ← tuple.uint8
    if value = 0 then
      pure ({ s with state := STATE_NONE }, [])
    else if value = 255 then
      pure ({ s with state := STATE_RECEIVING_BARCODE, autoDisplay := 1 },
            send_request SEND_BARCODE 255)
    else
      pure ({ s with state := STATE_RECEIVING_INITIAL_BARCODE_NAMES,
                     numBarcodes := value, barcodeNameCount := 0 },
            send_request SEND_BARCODE_NAME 0)
  | none => pure (s, [])

/-- The branch `case STATE_RECEIVING_INITIAL_BARCODE_NAMES`. -/
def caseInitialNames (s : AppState) (received : Dict) : Except Fault (AppState × List Request) :=
  match dict_find received BARCODE_NAME with
  | some tuple => do
    let s ← storeName s received tuple
    let s := { s with nameBufferPtr := toInt32 (s.nameBufferPtr + 1),
                      barcodeNameCount := toInt32 (s.barcodeNameCount + 1) }
    if s.nameBufferPtr = s.numBarcodes ∨ s.nameBufferPtr = (NAME_BUFFER_SIZE : Int) then
      pure ({ s with state := STATE_NONE }, [])
    else
      pure (s, send_request SEND_BARCODE_NAME s.nameBufferPtr)
  | none => pure (s, [])

/-- The branch `case STATE_WAITING_BARCODE_NAMES`. -/
def caseMoreNames (s : AppState) (received : Dict) : Except Fault (AppState × List Request) := do
  let (s, out) ←
    match dict_find received BARCODE_NAME with
    | some tuple => do
      let s ← storeName s received tuple
      pure (({ s with nameBufferPtr := Int.tmod s.nameBufferPtr NAME_BUFFER_SIZE,
                      barcodeNameCount := toInt32 (s.barcodeNameCount + 1) }, []) :
              AppState × List Request)
    | none =>
      let (s, out) := mainMenu_select_long_click s
      pure ({ s with state := STATE_NONE }, out)
  if s.barcodeNameCount = s.numBarcodes then pure ({ s with state := STATE_NONE }, out)
  else pure (s, out)

/-- The branch `case STATE_RECEIVING_BARCODE`. -/
def caseBarcode (s : AppState) (received : Dict) : Except Fault (AppState × List Request) :=
  match dict_find received BARCODE_IMAGE_BYTES with
  | some tuple => do
    let firstRow ← tuple.uint16
    pure ({ s with firstRow := firstRow, transferDone := false },
          send_request BARCODE_NEXT_CHUNK firstRow)
  | none =>
    match dict_find received BARCODE_IMAGE with
    | some tuple =>
      match tuple.bytes with
      | b0 :: b1 :: b2 :: _ => do
        let rowNumber : Int := toUint16 (b0 + (b1 <<< 8 : Nat))
        let bytesPerRow : Int := b2
        let offset : Int := toInt32 (rowNumber * bytesPerRow)
        let s ← if offset < 2640 then memcpyImage s offset tuple else pure s
        pure (s, send_request BARCODE_NEXT_CHUNK rowNumber)
      | _ => .error (.payloadRead BARCODE_IMAGE tuple.length)
    | none =>
      let s :=
        match dict_find received BARCODE_IMAGE_DONE with
        | some _ => { s with transferDone := true }
        | none => s
      pure ({ s with state := STATE_NONE }, [])

/-- The statement `switch (state)` of `app_received_msg`. -/
def dispatch (s : AppState) (received : Dict) : Except Fault (AppState × List Request) :=
  if s.state = STATE_NONE then caseNone s received
  else if s.state = STATE_ERROR then caseError s
  else if s.state = STATE_WAITING_BARCODE_LIST_LENGTH then caseListLength s received
  else if s.state = STATE_RECEIVING_INITIAL_BARCODE_NAMES then caseInitialNames s received
  else if s.state = STATE_WAITING_BARCODE_NAMES then caseMoreNames s received
  else if s.state = STATE_RECEIVING_BARCODE then caseBarcode s received
  else pure (s, [])

/-- The callback `app_received_msg`: the error check, then the switch on `state`. -/
def app_received_msg (s : AppState) (received : Dict) : Except Fault (AppState × List Request) := do
  let s ← errorCheck s received
  dispatch s received

/-! ## Menu and window callbacks -/

/-- The callback `mainMenu_get_num_rows_in_section`. -/
def mainMenu_get_num_rows_in_section (s : AppState) : Int :=
  toUint16 (if s.numBarcodes = 0 then 1 else s.numBarcodes)

/-- The callback `mainMenu_select_click` for the menu row `row` (`cell_index->row`). -/
def mainMenu_select_click (s : AppState) (row : Nat) : AppState × List Request :=
  if s.barcodeNameCount = 0 then ({ s with state := STATE_NONE }, [])
  else
    ({ s with state := STATE_RECEIVING_BARCODE, justSelected := toUint16 row },
     send_request SEND_BARCODE (toUint16 row))

/-- The cell `mainMenu_draw_row` draws for the row `barcodeNameNumber`: the
entries `nameBuffer[barcodeNameNumber % NAME_BUFFER_SIZE]` and
`formatBuffer[barcodeNameNumber % NAME_BUFFER_SIZE]`. -/
def drawnCell (s : AppState) (barcodeNameNumber : Nat) :
    Option (List Nat) × Option (List Nat) :=
  ((s.nameBuffer.get? (barcodeNameNumber % NAME_BUFFER_SIZE)).join,
   (s.formatBuffer.get? (barcodeNameNumber % NAME_BUFFER_SIZE)).join)

/-- The callback `mainMenu_draw_row` for the menu row `row`: its effect on the
engine (the request for more names). -/
def mainMenu_draw_row (s : AppState) (row : Nat) : AppState × List Request :=
  let barcodeNameNumber : Int := toUint16 row
  if s.barcodeNameCount = 0 then (s, [])
  else if barcodeNameNumber < s.numBarcodes ∧
      toInt32 (barcodeNameNumber + 1) > s.barcodeNameCount then
    ({ s with state := STATE_WAITING_BARCODE_NAMES },
     send_request SEND_BARCODE_NAME (toInt32 (barcodeNameNumber + 1)))
  else (s, [])

/-- The handler `barcode_window_load`: allocate the image buffer, all bytes `0xFF`. -/
def barcode_window_load (s : AppState) : AppState × List Request :=
  ({ s with barcodeImageData := some (List.replicate BYTES_PER_SCREEN 255) }, [])

/-- The handler `barcode_window_unload`: release the image buffer; after an
automatic display, reload the list. -/
def barcode_window_unload (s : AppState) : AppState × List Request :=
  let s := { s with barcodeImageData := none }
  if s.autoDisplay ≠ 0 then
    ({ s with autoDisplay := 0, justSelected := -1, nameBufferPtr := 0,
              state := STATE_WAITING_BARCODE_LIST_LENGTH },
     send_request REQUEST_BARCODE_LIST_LENGTH WATCHAPP_VERSION_NUMBER)
  else (s, [])

/-- The variables at program start: the static initialisers, then `state = STATE_NONE` in `main`. -/
def mainInit : AppState :=
  { state := STATE_NONE, barcodeNameCount := 0, numBarcodes := 0,
    nameBuffer := List.replicate NAME_BUFFER_SIZE none,
    formatBuffer := List.replicate NAME_BUFFER_SIZE none,
    nameBufferPtr := 0, barcodeImageData := none, firstRow := 0, justSelected := 0,
    autoDisplay := 0, transferDone := false, error := false, msg := .null }

/-- The handler `window_load`: its effect on the engine (the first list-length request). -/
def window_load (s : AppState) : AppState × List Request :=
  ({ s with justSelected := -1, state := STATE_WAITING_BARCODE_LIST_LENGTH },
   send_request REQUEST_BARCODE_LIST_LENGTH WATCHAPP_VERSION_NUMBER)

/-! ## The engine as a transition system -/

/-- What the event loop delivers to the engine once the main window is loaded. -/
inductive Event where
  | message (received : Dict)
  | select_click (row : Nat)
  | select_long_click
  | draw_row (row : Nat)
  | barcode_window_load
  | barcode_window_unload
  deriving DecidableEq, Repr

/-- One callback run on the variables `s`. -/
def step (s : AppState) : Event → Except Fault (AppState × List Request)
  | .message received => app_received_msg s received
  | .select_click row => pure (mainMenu_select_click s row)
  | .select_long_click => pure (mainMenu_select_long_click s)
  | .draw_row row => pure (mainMenu_draw_row s row)
  | .barcode_window_load => pure (barcode_window_load s)
  | .barcode_window_unload => pure (barcode_window_unload s)

/-- A sequence of callbacks, the requests sent collected in order. -/
def run (s : AppState) : List Event → Except Fault (AppState × List Request)
  | [] => pure (s, [])
  | e :: es => do
    let (s1, out1) ← step s e
    let (s2, out2) ← run s1 es
    pure (s2, out1 ++ out2)

/-- The variables when the event loop starts: `main`, then `window_load`. -/
def initState : AppState := (window_load mainInit).1

/-- The states the engine can be in: `initState`, and every state a callback
leads to from one of them without a fault.  The event loop may deliver any
message and run any menu or window callback at any time; the order in which the
window stack really calls its handlers is not assumed. -/
inductive Reachable : AppState → Prop where
  | init : Reachable initState
  | step {s s1 : AppState} {out : List Request} (e : Event) :
      Reachable s → step s e = .ok (s1, out) → Reachable s1

/-! ## Messages of the companion device, for the concrete traces -/

/-- A length reply: one `REQUEST_BARCODE_LIST_LENGTH` tuple holding the byte `n`. -/
def lengthReply (n : Nat) : Dict := [{ key := REQUEST_BARCODE_LIST_LENGTH, data := [n] }]

/-- A name reply: a `BARCODE_NAME` and a `BARCODE_FORMAT` tuple, both zero-terminated strings. -/
def nameReply (name format : List Nat) : Dict :=
  [{ key := BARCODE_NAME, data := name ++ [0] }, { key := BARCODE_FORMAT, data := format ++ [0] }]

/-- The replies to the first `n` name requests: entry `k` is named by the single character `65 + k`. -/
def nameReplies (n : Nat) : List Event :=
  (List.range n).map (fun k => Event.message (nameReply [65 + k] [70]))

/-- An image announcement: one `BARCODE_IMAGE_BYTES` tuple holding a 16-bit integer. -/
def imageBytes (lo hi : Nat) : Dict := [{ key := BARCODE_IMAGE_BYTES, data := [lo, hi] }]

/-- A row chunk: one `BARCODE_IMAGE` tuple, the 3-byte header followed by the row bytes. -/
def rowChunk (b0 b1 b2 : Nat) (payload : List Nat) : Dict :=
  [{ key := BARCODE_IMAGE, data := b0 :: b1 :: b2 :: payload }]

/-- A tuple is present under `key` and holds a zero-terminated string. -/
def HasString (received : Dict) (key : Nat) : Prop :=
  match dict_find received key with
  | some t => 0 ∈ t.bytes
  | none => False

instance (received : Dict) (key : Nat) : Decidable (HasString received key) := by
  unfold HasString; split <;> infer_instance

/-- An image transfer under way: the state after a display-now length reply
and the opening of the image screen. -/
def receivingState : AppState :=
  { initState with state := STATE_RECEIVING_BARCODE, autoDisplay := 1,
                   barcodeImageData := some (List.replicate BYTES_PER_SCREEN 255) }

instance {ε α : Type} [DecidableEq ε] [DecidableEq α] : DecidableEq (Except ε α)
  | .ok a, .ok b => if h : a = b then isTrue (by rw [h]) else isFalse (fun e => h (by cases e; rfl))
  | .error a, .error b =>
    if h : a = b then isTrue (by rw [h]) else isFalse (fun e => h (by cases e; rfl))
  | .ok _, .error _ => isFalse (fun e => by cases e)
  | .error _, .ok _ => isFalse (fun e => by cases e)

/-- A name reply as the engine expects it: no error tuple, and a name and a
format tuple that hold zero-terminated strings. -/
def IsNameReply (received : Dict) : Prop :=
  dict_find received BARCODE_ERROR = none ∧
    HasString received BARCODE_NAME ∧ HasString received BARCODE_FORMAT

instance (received : Dict) : Decidable (IsNameReply received) := by
  unfold IsNameReply; infer_instance

/-- A length reply that carries the byte `L` and no error tuple. -/
def IsLengthReply (received : Dict) (L : Nat) : Prop :=
  dict_find received BARCODE_ERROR = none ∧
    match dict_find received REQUEST_BARCODE_LIST_LENGTH with
    | some t => t.uint8 = .ok L
    | none => False

instance (received : Dict) (L : Nat) : Decidable (IsLengthReply received L) := by
  unfold IsLengthReply; split <;> infer_instance

/-- The invariant of the engine between two callbacks: the counts are ordered and
bounded, the write cursor is at most `NAME_BUFFER_SIZE`, `state` is one of the
five values the code ever leaves in it, and in the three waiting states the
cursor and the counts are related as the handlers need. -/
def Inv (s : AppState) : Prop :=
  0 ≤ s.barcodeNameCount ∧ s.barcodeNameCount ≤ s.numBarcodes ∧ s.numBarcodes ≤ 254 ∧
  0 ≤ s.nameBufferPtr ∧ s.nameBufferPtr ≤ 10 ∧
  (s.state = STATE_NONE ∨ s.state = STATE_WAITING_BARCODE_LIST_LENGTH ∨
    s.state = STATE_WAITING_BARCODE_NAMES ∨ s.state = STATE_RECEIVING_INITIAL_BARCODE_NAMES ∨
    s.state = STATE_RECEIVING_BARCODE) ∧
  (s.state = STATE_WAITING_BARCODE_LIST_LENGTH → s.nameBufferPtr = 0) ∧
  (s.state = STATE_RECEIVING_INITIAL_BARCODE_NAMES →
    s.nameBufferPtr = s.barcodeNameCount ∧ s.barcodeNameCount < s.numBarcodes ∧
    s.nameBufferPtr < 10) ∧
  (s.state = STATE_WAITING_BARCODE_NAMES → s.barcodeNameCount < s.numBarcodes)

/-- The state a trace of callbacks leads to from `initState` (`initState` itself
if the trace runs into a fault). -/
def stateAfter (es : List Event) : AppState :=
  match run initState es with
  | .ok (s, _) => s
  | .error _ => initState

/-- A catalog of `L` entries after the initial fetch of `n` names. -/
def fetchTrace (L n : Nat) : List Event := Event.message (lengthReply L) :: nameReplies n

/-- A message whose only tuple has a key the watch never looks up. -/
def otherMessage : Dict := [{ key := SEND_BARCODE_NAMES, data := [0] }]

/-- The message carries no error tuple and none of the tuples that
`app_received_msg` looks up in the state `s.state`; in
`STATE_WAITING_BARCODE_NAMES` the absence of a name is itself an event, so no
message is unmatched there. -/
def Unmatched (s : AppState) (received : Dict) : Prop :=
  dict_find received BARCODE_ERROR = none ∧
  (s.state = STATE_NONE →
    dict_find received CMD_KEY = none ∧ dict_find received DISPLAY_BARCODE = none) ∧
  (s.state = STATE_WAITING_BARCODE_LIST_LENGTH →
    dict_find received REQUEST_BARCODE_LIST_LENGTH = none) ∧
  (s.state = STATE_RECEIVING_INITIAL_BARCODE_NAMES → dict_find received BARCODE_NAME = none) ∧
  (s.state = STATE_RECEIVING_BARCODE →
    dict_find received BARCODE_IMAGE_BYTES = none ∧ dict_find received BARCODE_IMAGE = none ∧
    dict_find received BARCODE_IMAGE_DONE = none) ∧
  s.state ≠ STATE_WAITING_BARCODE_NAMES

instance (s : AppState) (received : Dict) : Decidable (Unmatched s received) := by
  unfold Unmatched; infer_instance

/-- A completion signal: one `BARCODE_IMAGE_DONE` tuple. -/
def imageDone : Dict := [{ key := BARCODE_IMAGE_DONE, data := [0] }]

/-- A push from the device: one `DISPLAY_BARCODE` tuple holding the byte `n`. -/
def displayBarcode (n : Nat) : Dict := [{ key := DISPLAY_BARCODE, data := [n] }]

/-- A message that `case STATE_RECEIVING_BARCODE` handles as a row chunk: no
error tuple, no announcement tuple, and a `BARCODE_IMAGE` tuple. -/
def IsRowChunk (received : Dict) : Prop :=
  dict_find received BARCODE_ERROR = none ∧ dict_find received BARCODE_IMAGE_BYTES = none ∧
    (dict_find received BARCODE_IMAGE).isSome

instance (received : Dict) : Decidable (IsRowChunk received) := by
  unfold IsRowChunk; infer_instance

/-- A message that `case STATE_RECEIVING_BARCODE` handles as the completion
signal: no error, announcement or row-chunk tuple, and a `BARCODE_IMAGE_DONE` tuple. -/
def IsImageDone (received : Dict) : Prop :=
  dict_find received BARCODE_ERROR = none ∧ dict_find received BARCODE_IMAGE_BYTES = none ∧
    dict_find received BARCODE_IMAGE = none ∧ (dict_find received BARCODE_IMAGE_DONE).isSome

instance (received : Dict) : Decidable (IsImageDone received) := by
  unfold IsImageDone; infer_instance

/-- A message with neither a `CMD_KEY` nor a `DISPLAY_BARCODE` tuple: in
`STATE_NONE` it can start neither a refresh nor a transfer. -/
def StartsNothing (received : Dict) : Prop :=
  dict_find received CMD_KEY = none ∧ dict_find received DISPLAY_BARCODE = none

instance (received : Dict) : Decidable (StartsNothing received) := by
  unfold StartsNothing; infer_instance

/-- The row number in the header of a row chunk: `data[0] + 256 * data[1]`. -/
def chunkRow (received : Dict) : Nat :=
  match dict_find received BARCODE_IMAGE with
  | some t =>
    match t.bytes with
    | b0 :: b1 :: _ => b0 + 256 * b1
    | _ => 0
  | none => 0

/-- An image transfer of a catalog entry under way: a catalog of 3 fetched,
row 0 selected and the image screen opened. -/
def selectedTrace : List Event :=
  fetchTrace 3 3 ++ [Event.select_click 0, Event.barcode_window_load]

/-- The name a name reply carries, as `strcpy` reads it from the `BARCODE_NAME` tuple. -/
def replyName (received : Dict) : List Nat :=
  match dict_find received BARCODE_NAME with
  | some t => t.bytes.takeWhile (fun b => b != 0)
  | none => []

/-- The format a name reply carries, as `strcpy` reads it from the `BARCODE_FORMAT` tuple. -/
def replyFormat (received : Dict) : List Nat :=
  match dict_find received BARCODE_FORMAT with
  | some t => t.bytes.takeWhile (fun b => b != 0)
  | none => []

/-- The request `send_request(SEND_BARCODE_NAME, k)`. -/
def nameRequest (k : Nat) : Request := { req := SEND_BARCODE_NAME, data := k }

/-! ## Basic facts about the embedding -/

theorem bytes_lt (t : Tuple) (b : Nat) (h : b ∈ t.bytes) : b < 256 := by
  unfold Tuple.bytes at h
  obtain ⟨a, -, rfl⟩ := List.mem_map.mp h
  exact Nat.mod_lt _ (by decide)

theorem errorCheck_none (s : AppState) (received : Dict)
    (h : dict_find received BARCODE_ERROR = none) :
    errorCheck s received = .ok { s with error := false } := by
  simp [errorCheck, h, pure, Except.pure]

theorem app_received_msg_no_error (s : AppState) (received : Dict)
    (h : dict_find received BARCODE_ERROR = none) :
    app_received_msg s received = dispatch { s with error := false } received := by
  simp [app_received_msg, errorCheck_none s received h, bind, Except.bind]

/-- Reading back a buffer into which `src` was copied at `o`. -/
theorem getElem?_written (image src : List Nat) (o i : Nat) (h : o + src.length ≤ image.length) :
    (image.take o ++ src ++ image.drop (o + src.length))[i]? =
      if o ≤ i ∧ i < o + src.length then src[i - o]? else image[i]? := by
  have hto : (image.take o).length = o := by simp; omega
  by_cases h1 : i < o
  · rw [List.append_assoc, List.getElem?_append_left (by omega)]
    have hc : ¬ (o ≤ i ∧ i < o + src.length) := by omega
    simp [List.getElem?_take, h1, hc]
  · by_cases h2 : i < o + src.length
    · rw [List.getElem?_append_left (by simp; omega),
        List.getElem?_append_right (by omega)]
      have hc : o ≤ i := by omega
      simp [hto, h2, hc]
    · rw [List.getElem?_append_right (by simp; omega)]
      have hc : ¬ (o ≤ i ∧ i < o + src.length) := by omega
      have hi : o + src.length + (i - (min o image.length + src.length)) = i := by omega
      simp [List.getElem?_drop, hc, hi]

theorem length_written (image src : List Nat) (o : Nat) (h : o + src.length ≤ image.length) :
    (image.take o ++ src ++ image.drop (o + src.length)).length = image.length := by
  simp; omega

/-! ## Image rows (C1, C2) -/

/-- The header arithmetic of a row chunk in machine widths equals the exact values. -/
theorem header_arith (t : Tuple) (b0 b1 b2 : Nat) (payload : List Nat)
    (h : t.bytes = b0 :: b1 :: b2 :: payload) :
    toUint16 ((b0 : Int) + ((b1 <<< 8 : Nat) : Int)) = ((b0 + 256 * b1 : Nat) : Int) ∧
    toInt32 (toUint16 ((b0 : Int) + ((b1 <<< 8 : Nat) : Int)) * (b2 : Int))
      = (((b0 + 256 * b1) * b2 : Nat) : Int) := by
  have h0 : b0 < 256 := bytes_lt t b0 (by simp [h])
  have h1 : b1 < 256 := bytes_lt t b1 (by simp [h])
  have h2 : b2 < 256 := bytes_lt t b2 (by simp [h])
  have hs : b1 <<< 8 = 256 * b1 := by simp [Nat.shiftLeft_eq]; omega
  have hr : toUint16 ((b0 : Int) + ((b1 <<< 8 : Nat) : Int)) = ((b0 + 256 * b1 : Nat) : Int) := by
    rw [hs]; unfold toUint16; omega
  refine ⟨hr, ?_⟩
  rw [hr, ← Nat.cast_mul]
  have hp : (b0 + 256 * b1) * b2 ≤ 65535 * 255 := Nat.mul_le_mul (by omega) (by omega)
  generalize (b0 + 256 * b1) * b2 = p at hp ⊢
  unfold toInt32
  omega

theorem tuple_length_bytes (t : Tuple) : t.length = t.bytes.length := by
  simp [Tuple.length, Tuple.bytes]

/-- The row-chunk branch of `caseBarcode`, the header decoded. -/
theorem caseBarcode_row (s : AppState) (received : Dict) (tuple : Tuple)
    (payload : List Nat) (b0 b1 b2 : Nat)
    (hann : dict_find received BARCODE_IMAGE_BYTES = none)
    (hrow : dict_find received BARCODE_IMAGE = some tuple)
    (hdata : tuple.bytes = b0 :: b1 :: b2 :: payload) :
    caseBarcode s received =
      if (b0 + 256 * b1) * b2 < 2640 then
        (memcpyImage s (((b0 + 256 * b1) * b2 : Nat) : Int) tuple).map
          (fun s1 => (s1, send_request BARCODE_NEXT_CHUNK ((b0 + 256 * b1 : Nat) : Int)))
      else .ok (s, send_request BARCODE_NEXT_CHUNK ((b0 + 256 * b1 : Nat) : Int)) := by
  obtain ⟨hr, ho⟩ := header_arith tuple b0 b1 b2 payload hdata
  rw [hr] at ho
  simp only [caseBarcode, hann, hrow, hdata, hr, ho]
  by_cases hg : (b0 + 256 * b1) * b2 < 2640
  · have hg2 : (((b0 + 256 * b1) * b2 : Nat) : Int) < 2640 := by omega
    rw [if_pos hg, if_pos hg2]
    cases memcpyImage s (((b0 + 256 * b1) * b2 : Nat) : Int) tuple <;> rfl
  · have hg2 : ¬ (((b0 + 256 * b1) * b2 : Nat) : Int) < 2640 := by omega
    rw [if_neg hg, if_neg hg2]
    rfl

theorem memcpyImage_inside (s : AppState) (tuple : Tuple) (image payload : List Nat)
    (b0 b1 b2 o : Nat)
    (himage : s.barcodeImageData = some image)
    (hdata : tuple.bytes = b0 :: b1 :: b2 :: payload)
    (hfit : o + payload.length ≤ image.length) :
    memcpyImage s (o : Int) tuple =
      .ok { s with
        barcodeImageData := some (image.take o ++ payload ++ image.drop (o + payload.length)) } := by
  have hl : ¬ tuple.length < 3 := by rw [tuple_length_bytes, hdata]; simp
  have hc : (0 : Int) ≤ (o : Int) ∧ (o : Int) + (payload.length : Int) ≤ (image.length : Int) := by
    omega
  simp [memcpyImage, himage, hl, hdata, hc]

theorem memcpyImage_outside (s : AppState) (tuple : Tuple) (image payload : List Nat)
    (b0 b1 b2 o : Nat)
    (himage : s.barcodeImageData = some image)
    (hdata : tuple.bytes = b0 :: b1 :: b2 :: payload)
    (hfit : image.length < o + payload.length) :
    memcpyImage s (o : Int) tuple = .error (.imageWrite o payload.length) := by
  have hl : ¬ tuple.length < 3 := by rw [tuple_length_bytes, hdata]; simp
  have hc : ¬ ((0 : Int) ≤ (o : Int) ∧ (o : Int) + (payload.length : Int) ≤ (image.length : Int)) := by
    omega
  simp [memcpyImage, himage, hl, hdata, hc]
  omega

/-- C1 (the code departs from the claim): a row chunk with `offset + n > 2688` is not
always dropped.  After a display-now length reply, the opening of the image
screen and the announcement, the chunk with header `(164, 0, 16)` and 65 row
bytes has `offset = 2624 < 2640`, so the guard lets the `memcpy` run, and it
writes one byte past the 2688-byte buffer. -/
theorem C1_row_chunk_overruns_image_buffer :
    (164 + 256 * 0) * 16 + 65 > 2688 ∧
    run initState [.message (lengthReply 255), .barcode_window_load,
        .message (imageBytes 0 0), .message (rowChunk 164 0 16 (List.replicate 65 0))]
      = .error (.imageWrite 2624 65) := by
  decide!

/-- C2 (counterexample): the chunk for row 165 with 16 row bytes lies inside the
buffer (`offset + n = 2656 ≤ 2688`), yet the buffer is left as it was, all `0xFF`,
and does not hold the 16 zero bytes of the payload. -/
theorem C2_row_165_is_dropped :
    (165 + 256 * 0) * 16 + 16 ≤ 2688 ∧
    (run initState [.message (lengthReply 255), .barcode_window_load, .message (imageBytes 0 0),
        .message (rowChunk 165 0 16 (List.replicate 16 0))]).map (fun r => r.1.barcodeImageData)
      = .ok (some (List.replicate 2688 255)) := by
  decide!

/-- C2 (amended): a row chunk processed in `STATE_RECEIVING_BARCODE` whose bytes fit
the buffer (`offset + n ≤ 2688`) is written exactly when `offset < 2640`: then the
buffer holds the payload at `[offset, offset+n)` and every other byte is
unchanged; for `offset ≥ 2640` the buffer is unchanged.  In both cases the next
chunk is requested with the row number. -/
theorem C2_row_write_below_2640 (s : AppState) (received : Dict) (tuple : Tuple)
    (image payload : List Nat) (b0 b1 b2 : Nat)
    (hstate : s.state = STATE_RECEIVING_BARCODE)
    (himage : s.barcodeImageData = some image) (hlen : image.length = BYTES_PER_SCREEN)
    (herr : dict_find received BARCODE_ERROR = none)
    (hann : dict_find received BARCODE_IMAGE_BYTES = none)
    (hrow : dict_find received BARCODE_IMAGE = some tuple)
    (hdata : tuple.bytes = b0 :: b1 :: b2 :: payload)
    (hfit : (b0 + 256 * b1) * b2 + payload.length ≤ 2688) :
    ∃ after : List Nat,
      app_received_msg s received =
        .ok ({ s with error := false, barcodeImageData := some after },
             send_request BARCODE_NEXT_CHUNK ((b0 + 256 * b1 : Nat) : Int)) ∧
      after.length = 2688 ∧
      if (b0 + 256 * b1) * b2 < 2640 then
        ∀ i : Nat, after[i]? =
          if (b0 + 256 * b1) * b2 ≤ i ∧ i < (b0 + 256 * b1) * b2 + payload.length
          then payload[i - (b0 + 256 * b1) * b2]? else image[i]?
      else after = image := by
  have hlen2 : image.length = 2688 := hlen
  rw [app_received_msg_no_error s received herr]
  have hd : dispatch { s with error := false } received
      = caseBarcode { s with error := false } received := by
    simp [dispatch, hstate]
  rw [hd, caseBarcode_row _ received tuple payload b0 b1 b2 hann hrow hdata]
  by_cases hg : (b0 + 256 * b1) * b2 < 2640
  · refine ⟨image.take ((b0 + 256 * b1) * b2) ++ payload
        ++ image.drop ((b0 + 256 * b1) * b2 + payload.length), ?_, ?_, ?_⟩
    · rw [if_pos hg, memcpyImage_inside { s with error := false } tuple image payload b0 b1 b2 _
        himage hdata (by omega)]
      rfl
    · rw [length_written _ _ _ (by omega)]; exact hlen2
    · rw [if_pos hg]
      intro i
      exact getElem?_written image payload _ i (by omega)
  · refine ⟨image, ?_, hlen2, ?_⟩
    · rw [if_neg hg]
      have hs : ({ s with error := false, barcodeImageData := some image } : AppState)
          = { s with error := false } := by rw [← himage]
      rw [hs]
    · rw [if_neg hg]


/-- C2 (witness): row 3 with three row bytes, into a blank buffer. -/
theorem C2_row_write_below_2640_witness :
    ∃ after : List Nat,
      app_received_msg receivingState (rowChunk 3 0 16 [1, 2, 3]) =
        .ok ({ receivingState with error := false, barcodeImageData := some after },
             send_request BARCODE_NEXT_CHUNK ((3 + 256 * 0 : Nat) : Int)) ∧
      after.length = 2688 ∧
      if (3 + 256 * 0) * 16 < 2640 then
        ∀ i : Nat, after[i]? =
          if (3 + 256 * 0) * 16 ≤ i ∧ i < (3 + 256 * 0) * 16 + [1, 2, 3].length
          then [1, 2, 3][i - (3 + 256 * 0) * 16]? else (List.replicate BYTES_PER_SCREEN 255)[i]?
      else after = List.replicate BYTES_PER_SCREEN 255 :=
  C2_row_write_below_2640 receivingState (rowChunk 3 0 16 [1, 2, 3])
    { key := BARCODE_IMAGE, data := [3, 0, 16, 1, 2, 3] } (List.replicate BYTES_PER_SCREEN 255)
    [1, 2, 3] 3 0 16 rfl rfl (by simp) rfl rfl rfl rfl (by decide)

/-! ## The initial fetch (C3) -/

/-- A zero-terminated string under `key` is read by `cstring` without fault. -/
theorem hasString_elim (received : Dict) (key : Nat) (h : HasString received key) :
    ∃ t str, dict_find received key = some t ∧ t.cstring = .ok str := by
  unfold HasString at h
  split at h
  · next t ht =>
    exact ⟨t, t.bytes.takeWhile (fun b => b != 0), ht, by simp [Tuple.cstring, h]⟩
  · exact h.elim

/-- The five statements that store a name reply, the cursor inside the array. -/
theorem storeName_ok (s : AppState) (received : Dict) (tn tf : Tuple) (name format : List Nat)
    (hptr : 0 ≤ s.nameBufferPtr ∧ s.nameBufferPtr < 10)
    (hn : tn.cstring = .ok name) (hf : dict_find received BARCODE_FORMAT = some tf)
    (hfs : tf.cstring = .ok format) :
    storeName s received tn =
      .ok { s with nameBuffer := s.nameBuffer.set s.nameBufferPtr.toNat (some name),
                   formatBuffer := s.formatBuffer.set s.nameBufferPtr.toNat (some format) } := by
  simp [storeName, slotIndex, hptr, hn, hf, hfs, bind, Except.bind, pure, Except.pure]

/-- A run is its first callback followed by the run of the rest. -/
theorem run_cons_ok (s s1 s2 : AppState) (e : Event) (es : List Event) (o1 o2 : List Request)
    (h1 : step s e = .ok (s1, o1)) (h2 : run s1 es = .ok (s2, o2)) :
    run s (e :: es) = .ok (s2, o1 ++ o2) := by
  simp [run, h1, h2, bind, Except.bind, pure, Except.pure]

/-- One name reply in `STATE_RECEIVING_INITIAL_BARCODE_NAMES`, the cursor inside the array. -/
theorem initialNames_step (s : AppState) (received : Dict) (c : Nat)
    (hstate : s.state = STATE_RECEIVING_INITIAL_BARCODE_NAMES)
    (hptr : s.nameBufferPtr = c) (hcount : s.barcodeNameCount = c) (hc : c < 10)
    (hreply : IsNameReply received) :
    ∃ s1 out, app_received_msg s received = .ok (s1, out) ∧
      s1.nameBufferPtr = (c + 1 : Nat) ∧ s1.barcodeNameCount = (c + 1 : Nat) ∧
      s1.numBarcodes = s.numBarcodes ∧
      s1.state = (if ((c + 1 : Nat) : Int) = s.numBarcodes ∨ c + 1 = 10 then STATE_NONE
                  else STATE_RECEIVING_INITIAL_BARCODE_NAMES) ∧
      out = (if ((c + 1 : Nat) : Int) = s.numBarcodes ∨ c + 1 = 10 then []
             else send_request SEND_BARCODE_NAME (c + 1 : Nat)) := by
  obtain ⟨herr, hname, hformat⟩ := hreply
  obtain ⟨tn, name, htn, hn⟩ := hasString_elim _ _ hname
  obtain ⟨tf, format, htf, hf⟩ := hasString_elim _ _ hformat
  rw [app_received_msg_no_error s received herr]
  have hd : dispatch { s with error := false } received
      = caseInitialNames { s with error := false } received := by
    simp [dispatch, hstate]
  have hst := storeName_ok { s with error := false } received tn tf name format
    (by simp [hptr]; omega) hn htf hf
  have h32 : toInt32 ((c : Int) + 1) = ((c + 1 : Nat) : Int) := by unfold toInt32; omega
  rw [hd]
  unfold caseInitialNames
  simp only [htn, hst, bind, Except.bind]
  split
  · next hstop =>
    simp only [hptr, hcount, h32, NAME_BUFFER_SIZE, Nat.cast_ofNat] at hstop
    refine ⟨_, _, rfl, ?_, ?_, rfl, ?_, ?_⟩
    · simp [hptr, h32]
    · simp [hcount, h32]
    · rw [if_pos (by omega)]
    · rw [if_pos (by omega)]
  · next hstop =>
    simp only [hptr, hcount, h32, NAME_BUFFER_SIZE, Nat.cast_ofNat] at hstop
    refine ⟨_, _, rfl, ?_, ?_, rfl, ?_, ?_⟩
    · simp [hptr, h32]
    · simp [hcount, h32]
    · rw [if_neg (by omega)]; exact hstate
    · rw [if_neg (by omega)]; simp [hptr, h32]

/-- A length reply `1..254` in `STATE_WAITING_BARCODE_LIST_LENGTH`. -/
theorem listLength_step (s : AppState) (received : Dict) (L : Nat)
    (hstate : s.state = STATE_WAITING_BARCODE_LIST_LENGTH) (hL : 1 ≤ L ∧ L ≤ 254)
    (h : IsLengthReply received L) :
    app_received_msg s received =
      .ok ({ s with error := false, state := STATE_RECEIVING_INITIAL_BARCODE_NAMES,
                    numBarcodes := L, barcodeNameCount := 0 },
           send_request SEND_BARCODE_NAME 0) := by
  obtain ⟨herr, hlen⟩ := h
  rw [app_received_msg_no_error s received herr]
  split at hlen
  · next t ht =>
    have h0 : ¬ L = 0 := by omega
    have h255 : ¬ L = 255 := by omega
    simp [dispatch, hstate, caseListLength, ht, hlen, bind, Except.bind, pure, Except.pure,
      h0, h255]
  · exact hlen.elim

/-- The initial fetch from cursor `c`: name replies are consumed one by one, and
the engine leaves `STATE_RECEIVING_INITIAL_BARCODE_NAMES` exactly when the cursor
reaches `min L 10`. -/
theorem initialNames_run (L : Nat) (replies : List Dict) :
    ∀ (s : AppState) (c : Nat),
      s.state = STATE_RECEIVING_INITIAL_BARCODE_NAMES →
      s.nameBufferPtr = c → s.barcodeNameCount = c → s.numBarcodes = L →
      c < min L 10 → c + replies.length ≤ min L 10 →
      (∀ m ∈ replies, IsNameReply m) →
      ∃ s1 out, run s (replies.map Event.message) = .ok (s1, out) ∧
        s1.nameBufferPtr = (c + replies.length : Nat) ∧
        s1.barcodeNameCount = (c + replies.length : Nat) ∧
        s1.numBarcodes = L ∧
        s1.state = (if c + replies.length = min L 10 then STATE_NONE
                    else STATE_RECEIVING_INITIAL_BARCODE_NAMES) := by
  induction replies with
  | nil =>
    intro s c hstate hptr hcount hnum hc _ _
    refine ⟨s, [], rfl, by simpa using hptr, by simpa using hcount, hnum, ?_⟩
    rw [if_neg (by simp; omega)]; exact hstate
  | cons m rest ih =>
    intro s c hstate hptr hcount hnum hc hlen hall
    simp only [List.length_cons] at hlen
    obtain ⟨s1, o1, hstep, hptr1, hcount1, hnum1, hstate1, -⟩ :=
      initialNames_step s m c hstate hptr hcount (by omega) (hall m (by simp))
    rw [hnum] at hnum1 hstate1
    by_cases hend : c + 1 = min L 10
    · have hrest : rest = [] := List.eq_nil_of_length_eq_zero (by omega)
      subst hrest
      refine ⟨s1, o1 ++ [], run_cons_ok s s1 s1 _ _ o1 [] hstep rfl, ?_, ?_, hnum1, ?_⟩
      · simpa using hptr1
      · simpa using hcount1
      · rw [hstate1, if_pos (by omega), if_pos (by simpa using hend)]
    · obtain ⟨s2, o2, hrun, hptr2, hcount2, hnum2, hstate2⟩ :=
        ih s1 (c + 1) (by rw [hstate1, if_neg (by omega)]) hptr1 hcount1 hnum1 (by omega)
          (by omega) (fun m1 hm1 => hall m1 (by simp [hm1]))
      refine ⟨s2, o1 ++ o2, run_cons_ok s s1 s2 _ _ o1 o2 hstep hrun, ?_, ?_, hnum2, ?_⟩
      · rw [hptr2]; simp only [List.length_cons]; congr 1; omega
      · rw [hcount2]; simp only [List.length_cons]; congr 1; omega
      · rw [hstate2]
        simp only [List.length_cons]
        have : c + 1 + rest.length = c + (rest.length + 1) := by omega
        rw [this]

/-- C3: for every catalog length `L` in `1..254` and from the state a refresh
produces (whatever state the refresh was issued in), the length reply `L`
followed by `min L 10` name replies ends in `STATE_NONE` with
`barcodeNameCount = min L 10` and `numBarcodes = L`; after fewer than
`min L 10` name replies the engine is still in
`STATE_RECEIVING_INITIAL_BARCODE_NAMES`, so exactly `min L 10` are consumed. -/
theorem C3_initial_fetch (L : Nat) (s : AppState) (lengthMsg : Dict) (replies : List Dict)
    (hL : 1 ≤ L ∧ L ≤ 254)
    (hlength : IsLengthReply lengthMsg L)
    (hreplies : ∀ m ∈ replies, IsNameReply m)
    (hcount : replies.length = min L 10) :
    (∃ s1 out,
      run (mainMenu_select_long_click s).1
          (Event.message lengthMsg :: replies.map Event.message) = .ok (s1, out) ∧
      s1.state = STATE_NONE ∧ s1.barcodeNameCount = (min L 10 : Nat) ∧ s1.numBarcodes = L) ∧
    (∀ k, k < min L 10 → ∃ sk outk,
      run (mainMenu_select_long_click s).1
          (Event.message lengthMsg :: (replies.take k).map Event.message) = .ok (sk, outk) ∧
      sk.state = STATE_RECEIVING_INITIAL_BARCODE_NAMES) := by
  have hstep := listLength_step (mainMenu_select_long_click s).1 lengthMsg L rfl hL hlength
  generalize hs0 : ({ (mainMenu_select_long_click s).1 with
      error := false, state := STATE_RECEIVING_INITIAL_BARCODE_NAMES,
      numBarcodes := (L : Int), barcodeNameCount := 0 } : AppState) = s0 at hstep
  have hstate0 : s0.state = STATE_RECEIVING_INITIAL_BARCODE_NAMES := by rw [← hs0]
  have hptr0 : s0.nameBufferPtr = (0 : Nat) := by rw [← hs0]; rfl
  have hcount0 : s0.barcodeNameCount = (0 : Nat) := by rw [← hs0]; rfl
  have hnum0 : s0.numBarcodes = L := by rw [← hs0]
  constructor
  · obtain ⟨s1, out, hrun, -, hc1, hn1, hst1⟩ :=
      initialNames_run L replies s0 0 hstate0 hptr0 hcount0 hnum0 (by omega) (by omega) hreplies
    refine ⟨s1, _, run_cons_ok _ s0 s1 _ _ _ out hstep hrun, ?_, ?_, hn1⟩
    · rw [hst1, if_pos (by omega)]
    · rw [hc1]; congr 1; omega
  · intro k hk
    have hlk : (replies.take k).length = k := by simp; omega
    obtain ⟨sk, outk, hrun, -, -, -, hstk⟩ :=
      initialNames_run L (replies.take k) s0 0 hstate0 hptr0 hcount0 hnum0 (by omega)
        (by omega) (fun m hm => hreplies m (List.mem_of_mem_take hm))
    refine ⟨sk, _, run_cons_ok _ s0 sk _ _ _ outk hstep hrun, ?_⟩
    rw [hstk, if_neg (by omega)]


/-- C3 (witness): a catalog of 12 entries, of which the first 10 names are fetched. -/
theorem C3_initial_fetch_witness :
    (∃ s1 out,
      run (mainMenu_select_long_click mainInit).1
          (Event.message (lengthReply 12) ::
            ((List.range 10).map (fun k => nameReply [65 + k] [70])).map Event.message)
        = .ok (s1, out) ∧
      s1.state = STATE_NONE ∧ s1.barcodeNameCount = (min 12 10 : Nat) ∧ s1.numBarcodes = (12 : Nat)) ∧
    (∀ k, k < min 12 10 → ∃ sk outk,
      run (mainMenu_select_long_click mainInit).1
          (Event.message (lengthReply 12) ::
            (((List.range 10).map (fun k => nameReply [65 + k] [70])).take k).map Event.message)
        = .ok (sk, outk) ∧
      sk.state = STATE_RECEIVING_INITIAL_BARCODE_NAMES) :=
  C3_initial_fetch 12 mainInit (lengthReply 12)
    ((List.range 10).map (fun k => nameReply [65 + k] [70]))
    (by decide) (by decide) (by decide) (by decide)

/-! ## The invariant of the engine (C4) -/

theorem inv_initState : Inv initState := by
  unfold Inv initState window_load mainInit
  dsimp only [STATE_NONE, STATE_WAITING_BARCODE_LIST_LENGTH, STATE_WAITING_BARCODE_NAMES,
    STATE_RECEIVING_INITIAL_BARCODE_NAMES, STATE_RECEIVING_BARCODE, STATE_ERROR]
  omega

theorem inv_long_click (s : AppState) (h : Inv s) : Inv (mainMenu_select_long_click s).1 := by
  unfold Inv mainMenu_select_long_click at *
  dsimp only [STATE_NONE, STATE_WAITING_BARCODE_LIST_LENGTH, STATE_WAITING_BARCODE_NAMES,
    STATE_RECEIVING_INITIAL_BARCODE_NAMES, STATE_RECEIVING_BARCODE, STATE_ERROR] at *
  omega

theorem inv_select_click (s : AppState) (row : Nat) (h : Inv s) :
    Inv (mainMenu_select_click s row).1 := by
  unfold mainMenu_select_click
  split
  all_goals
    unfold Inv at *
    dsimp only [STATE_NONE, STATE_WAITING_BARCODE_LIST_LENGTH, STATE_WAITING_BARCODE_NAMES,
      STATE_RECEIVING_INITIAL_BARCODE_NAMES, STATE_RECEIVING_BARCODE, STATE_ERROR] at *
    omega

theorem inv_draw_row (s : AppState) (row : Nat) (h : Inv s) :
    Inv (mainMenu_draw_row s row).1 := by
  unfold mainMenu_draw_row
  dsimp only
  split
  · exact h
  · split
    · next hc hreq =>
      unfold Inv toInt32 toUint16 at *
      dsimp only [STATE_NONE, STATE_WAITING_BARCODE_LIST_LENGTH, STATE_WAITING_BARCODE_NAMES,
        STATE_RECEIVING_INITIAL_BARCODE_NAMES, STATE_RECEIVING_BARCODE, STATE_ERROR] at *
      omega
    · exact h

theorem inv_load (s : AppState) (h : Inv s) : Inv (barcode_window_load s).1 := h

theorem inv_unload (s : AppState) (h : Inv s) : Inv (barcode_window_unload s).1 := by
  unfold barcode_window_unload
  dsimp only
  split
  · unfold Inv at *
    dsimp only [STATE_NONE, STATE_WAITING_BARCODE_LIST_LENGTH, STATE_WAITING_BARCODE_NAMES,
      STATE_RECEIVING_INITIAL_BARCODE_NAMES, STATE_RECEIVING_BARCODE, STATE_ERROR] at *
    omega
  · exact h

/-- What `storeName` leaves alone, and where the cursor was when it succeeded. -/
theorem storeName_fields (s s1 : AppState) (received : Dict) (tuple : Tuple)
    (h : storeName s received tuple = .ok s1) :
    s1.state = s.state ∧ s1.barcodeNameCount = s.barcodeNameCount ∧
      s1.numBarcodes = s.numBarcodes ∧ s1.nameBufferPtr = s.nameBufferPtr ∧
      0 ≤ s.nameBufferPtr ∧ s.nameBufferPtr < 10 := by
  unfold storeName slotIndex at h
  by_cases hp : 0 ≤ s.nameBufferPtr ∧ s.nameBufferPtr < (NAME_BUFFER_SIZE : Int)
  · rw [if_pos hp] at h
    cases hn : tuple.cstring with
    | error f => simp [hn, bind, Except.bind] at h
    | ok name =>
      simp only [hn, bind, Except.bind] at h
      split at h
      · simp at h
      · next tf htf =>
        cases hf : tf.cstring with
        | error f => simp [hf] at h
        | ok format =>
          simp only [hf, pure, Except.pure, Except.ok.injEq] at h
          subst h
          dsimp only [NAME_BUFFER_SIZE] at hp
          refine ⟨rfl, rfl, rfl, rfl, ?_, ?_⟩ <;> omega
  · rw [if_neg hp] at h
    simp [bind, Except.bind] at h

theorem inv_caseNone (s s1 : AppState) (received : Dict) (out : List Request) (h : Inv s)
    (hres : caseNone s received = .ok (s1, out)) : Inv s1 := by
  unfold caseNone at hres
  split at hres
  · next tuple _ =>
    cases hv : tuple.uint8 with
    | error f => simp [hv, bind, Except.bind] at hres
    | ok value =>
      simp only [hv, bind, Except.bind, pure, Except.pure] at hres
      split at hres
      · simp only [Except.ok.injEq] at hres
        have hl := inv_long_click s h
        rw [hres] at hl
        exact hl
      · simp only [Except.ok.injEq, Prod.mk.injEq] at hres
        rw [← hres.1]; exact h
  · split at hres
    · next tuple _ =>
      cases hv : tuple.uint8 with
      | error f => simp [hv, bind, Except.bind] at hres
      | ok value =>
        simp only [hv, bind, Except.bind, pure, Except.pure] at hres
        split at hres
        · simp only [Except.ok.injEq, Prod.mk.injEq] at hres
          rw [← hres.1]
          unfold Inv at *
          dsimp only [STATE_NONE, STATE_WAITING_BARCODE_LIST_LENGTH, STATE_WAITING_BARCODE_NAMES,
            STATE_RECEIVING_INITIAL_BARCODE_NAMES, STATE_RECEIVING_BARCODE, STATE_ERROR] at *
          omega
        · simp only [Except.ok.injEq, Prod.mk.injEq] at hres
          rw [← hres.1]; exact h
    · simp only [pure, Except.pure, Except.ok.injEq, Prod.mk.injEq] at hres
      rw [← hres.1]; exact h

theorem inv_caseListLength (s s1 : AppState) (received : Dict) (out : List Request) (h : Inv s)
    (hstate : s.state = STATE_WAITING_BARCODE_LIST_LENGTH)
    (hres : caseListLength s received = .ok (s1, out)) : Inv s1 := by
  unfold caseListLength at hres
  split at hres
  · next tuple _ =>
    cases hv : tuple.uint8 with
    | error f => simp [hv, bind, Except.bind] at hres
    | ok value =>
      have hvalue : value < 256 := by
        unfold Tuple.uint8 at hv
        split at hv
        · next b0 rest hb =>
          simp only [Except.ok.injEq] at hv
          subst hv
          exact bytes_lt tuple b0 (by simp [hb])
        · simp at hv
      simp only [hv, bind, Except.bind, pure, Except.pure] at hres
      split at hres
      · simp only [Except.ok.injEq, Prod.mk.injEq] at hres
        rw [← hres.1]
        unfold Inv at *
        dsimp only [STATE_NONE, STATE_WAITING_BARCODE_LIST_LENGTH, STATE_WAITING_BARCODE_NAMES,
          STATE_RECEIVING_INITIAL_BARCODE_NAMES, STATE_RECEIVING_BARCODE, STATE_ERROR] at *
        omega
      · split at hres
        · simp only [Except.ok.injEq, Prod.mk.injEq] at hres
          rw [← hres.1]
          unfold Inv at *
          dsimp only [STATE_NONE, STATE_WAITING_BARCODE_LIST_LENGTH, STATE_WAITING_BARCODE_NAMES,
            STATE_RECEIVING_INITIAL_BARCODE_NAMES, STATE_RECEIVING_BARCODE, STATE_ERROR] at *
          omega
        · simp only [Except.ok.injEq, Prod.mk.injEq] at hres
          rw [← hres.1]
          unfold Inv at *
          dsimp only [STATE_NONE, STATE_WAITING_BARCODE_LIST_LENGTH, STATE_WAITING_BARCODE_NAMES,
            STATE_RECEIVING_INITIAL_BARCODE_NAMES, STATE_RECEIVING_BARCODE, STATE_ERROR] at *
          omega
  · simp only [pure, Except.pure, Except.ok.injEq, Prod.mk.injEq] at hres
    rw [← hres.1]; exact h

theorem inv_caseInitialNames (s s1 : AppState) (received : Dict) (out : List Request)
    (h : Inv s) (hstate : s.state = STATE_RECEIVING_INITIAL_BARCODE_NAMES)
    (hres : caseInitialNames s received = .ok (s1, out)) : Inv s1 := by
  unfold caseInitialNames at hres
  split at hres
  · next tuple _ =>
    cases hst : storeName s received tuple with
    | error f => simp [hst, bind, Except.bind] at hres
    | ok s2 =>
      obtain ⟨f1, f2, f3, f4, f5, f6⟩ := storeName_fields s s2 received tuple hst
      simp only [hst, bind, Except.bind, pure, Except.pure] at hres
      split at hres
      · next hstop =>
        simp only [Except.ok.injEq, Prod.mk.injEq] at hres
        rw [← hres.1]
        unfold Inv toInt32 at *
        dsimp only [STATE_NONE, STATE_WAITING_BARCODE_LIST_LENGTH, STATE_WAITING_BARCODE_NAMES,
          STATE_RECEIVING_INITIAL_BARCODE_NAMES, STATE_RECEIVING_BARCODE, STATE_ERROR,
          NAME_BUFFER_SIZE] at *
        rw [f1, f2, f3, f4] at *
        omega
      · next hstop =>
        simp only [Except.ok.injEq, Prod.mk.injEq] at hres
        rw [← hres.1]
        unfold Inv toInt32 at *
        dsimp only [STATE_NONE, STATE_WAITING_BARCODE_LIST_LENGTH, STATE_WAITING_BARCODE_NAMES,
          STATE_RECEIVING_INITIAL_BARCODE_NAMES, STATE_RECEIVING_BARCODE, STATE_ERROR,
          NAME_BUFFER_SIZE] at *
        rw [f1, f2, f3, f4] at *
        omega
  · simp only [pure, Except.pure, Except.ok.injEq, Prod.mk.injEq] at hres
    rw [← hres.1]; exact h

theorem inv_caseMoreNames (s s1 : AppState) (received : Dict) (out : List Request)
    (h : Inv s) (hstate : s.state = STATE_WAITING_BARCODE_NAMES)
    (hres : caseMoreNames s received = .ok (s1, out)) : Inv s1 := by
  unfold caseMoreNames at hres
  split at hres
  · next tuple _ =>
    cases hst : storeName s received tuple with
    | error f => simp [hst, bind, Except.bind] at hres
    | ok s2 =>
      obtain ⟨f1, f2, f3, f4, f5, f6⟩ := storeName_fields s s2 received tuple hst
      have htmod : Int.tmod s2.nameBufferPtr (NAME_BUFFER_SIZE : Int) = s.nameBufferPtr := by
        rw [f4]
        dsimp only [NAME_BUFFER_SIZE]
        rw [Int.tmod_eq_emod f5 (by omega)]
        omega
      simp only [hst, bind, Except.bind, pure, Except.pure, htmod] at hres
      split at hres
      · simp only [Except.ok.injEq, Prod.mk.injEq] at hres
        rw [← hres.1]
        unfold Inv toInt32 at *
        dsimp only [STATE_NONE, STATE_WAITING_BARCODE_LIST_LENGTH, STATE_WAITING_BARCODE_NAMES,
          STATE_RECEIVING_INITIAL_BARCODE_NAMES, STATE_RECEIVING_BARCODE, STATE_ERROR] at *
        rw [f1, f2, f3] at *
        omega
      · simp only [Except.ok.injEq, Prod.mk.injEq] at hres
        rw [← hres.1]
        unfold Inv toInt32 at *
        dsimp only [STATE_NONE, STATE_WAITING_BARCODE_LIST_LENGTH, STATE_WAITING_BARCODE_NAMES,
          STATE_RECEIVING_INITIAL_BARCODE_NAMES, STATE_RECEIVING_BARCODE, STATE_ERROR] at *
        rw [f1, f2, f3] at *
        omega
  · simp only [mainMenu_select_long_click, bind, Except.bind, pure, Except.pure] at hres
    split at hres
    all_goals
      simp only [Except.ok.injEq, Prod.mk.injEq] at hres
      rw [← hres.1]
      unfold Inv at *
      dsimp only [STATE_NONE, STATE_WAITING_BARCODE_LIST_LENGTH, STATE_WAITING_BARCODE_NAMES,
        STATE_RECEIVING_INITIAL_BARCODE_NAMES, STATE_RECEIVING_BARCODE, STATE_ERROR] at *
      omega

/-- A callback that keeps the counts and the cursor, and leaves `state` as it
was or moves it to `STATE_NONE` or `STATE_RECEIVING_BARCODE`, keeps the invariant. -/
theorem inv_of_fields (s s1 : AppState) (h : Inv s)
    (hstate : s1.state = s.state ∨ s1.state = STATE_NONE ∨ s1.state = STATE_RECEIVING_BARCODE)
    (hcount : s1.barcodeNameCount = s.barcodeNameCount) (hnum : s1.numBarcodes = s.numBarcodes)
    (hptr : s1.nameBufferPtr = s.nameBufferPtr) : Inv s1 := by
  unfold Inv at *
  dsimp only [STATE_NONE, STATE_WAITING_BARCODE_LIST_LENGTH, STATE_WAITING_BARCODE_NAMES,
    STATE_RECEIVING_INITIAL_BARCODE_NAMES, STATE_RECEIVING_BARCODE, STATE_ERROR] at *
  rw [hcount, hnum, hptr]
  omega

/-- The `memcpy` into the image buffer changes no other variable. -/
theorem memcpyImage_fields (s s1 : AppState) (offset : Int) (tuple : Tuple)
    (h : memcpyImage s offset tuple = .ok s1) :
    s1 = { s with barcodeImageData := s1.barcodeImageData } := by
  unfold memcpyImage at h
  split at h
  · simp at h
  · split at h
    · simp at h
    · dsimp only at h
      split at h
      · simp only [Except.ok.injEq] at h
        rw [← h]
      · simp at h

theorem inv_caseBarcode (s s1 : AppState) (received : Dict) (out : List Request)
    (h : Inv s) (hres : caseBarcode s received = .ok (s1, out)) : Inv s1 := by
  unfold caseBarcode at hres
  split at hres
  · next tuple _ =>
    cases hv : tuple.uint16 with
    | error f => simp [hv, bind, Except.bind] at hres
    | ok value =>
      simp only [hv, bind, Except.bind, pure, Except.pure, Except.ok.injEq, Prod.mk.injEq] at hres
      rw [← hres.1]
      exact inv_of_fields s _ h (Or.inl rfl) rfl rfl rfl
  · split at hres
    · next tuple _ =>
      split at hres
      · dsimp only at hres
        split at hres
        · simp only [bind, Except.bind] at hres
          split at hres
          · simp at hres
          · next s2 hm =>
            have hf := memcpyImage_fields s s2 _ tuple hm
            simp only [pure, Except.pure, Except.ok.injEq, Prod.mk.injEq] at hres
            rw [← hres.1, hf]
            exact inv_of_fields s _ h (Or.inl rfl) rfl rfl rfl
        · simp only [bind, Except.bind, pure, Except.pure, Except.ok.injEq, Prod.mk.injEq] at hres
          rw [← hres.1]; exact h
      · simp at hres
    · simp only [pure, Except.pure, Except.ok.injEq, Prod.mk.injEq] at hres
      rw [← hres.1]
      split
      · exact inv_of_fields s _ h (Or.inr (Or.inl rfl)) rfl rfl rfl
      · exact inv_of_fields s _ h (Or.inr (Or.inl rfl)) rfl rfl rfl

theorem inv_caseError (s s1 : AppState) (out : List Request)
    (h : Inv s) (hres : caseError s = .ok (s1, out)) : Inv s1 := by
  unfold caseError at hres
  split at hres
  · simp only [pure, Except.pure, Except.ok.injEq, Prod.mk.injEq] at hres
    rw [← hres.1]
    exact inv_of_fields s _ h (Or.inr (Or.inl rfl)) rfl rfl rfl
  · simp only [pure, Except.pure, Except.ok.injEq, Prod.mk.injEq] at hres
    rw [← hres.1]
    exact inv_of_fields s _ h (Or.inr (Or.inl rfl)) rfl rfl rfl
  · simp at hres

/-- The error check leaves the counts and the cursor, and either leaves `state`
or forces `STATE_ERROR`. -/
theorem errorCheck_fields (s s1 : AppState) (received : Dict)
    (h : errorCheck s received = .ok s1) :
    (s1.state = s.state ∨ (s1.state = STATE_ERROR ∧ ∃ str, s1.msg = MsgPtr.live str)) ∧
      s1.barcodeNameCount = s.barcodeNameCount ∧ s1.numBarcodes = s.numBarcodes ∧
      s1.nameBufferPtr = s.nameBufferPtr := by
  unfold errorCheck at h
  dsimp only at h
  split at h
  · next tuple _ =>
    cases hc : tuple.cstring with
    | error f => simp [hc, bind, Except.bind] at h
    | ok str =>
      simp only [hc, bind, Except.bind, pure, Except.pure, Except.ok.injEq] at h
      rw [← h]
      exact ⟨Or.inr ⟨rfl, _, rfl⟩, rfl, rfl, rfl⟩
  · simp only [pure, Except.pure, Except.ok.injEq] at h
    rw [← h]
    exact ⟨Or.inl rfl, rfl, rfl, rfl⟩

theorem inv_app_received_msg (s s1 : AppState) (received : Dict) (out : List Request)
    (h : Inv s) (hres : app_received_msg s received = .ok (s1, out)) : Inv s1 := by
  unfold app_received_msg at hres
  cases he : errorCheck s received with
  | error f => simp [he, bind, Except.bind] at hres
  | ok s0 =>
    obtain ⟨hstate, hcount, hnum, hptr⟩ := errorCheck_fields s s0 received he
    simp only [he, bind, Except.bind] at hres
    rcases hstate with hstate | ⟨hstate, -⟩
    · have h0 : Inv s0 := inv_of_fields s s0 h (Or.inl hstate) hcount hnum hptr
      unfold dispatch at hres
      split at hres
      · exact inv_caseNone s0 s1 received out h0 hres
      · split at hres
        · exact inv_caseError s0 s1 out h0 hres
        · split at hres
          · next hs => exact inv_caseListLength s0 s1 received out h0 hs hres
          · split at hres
            · next hs => exact inv_caseInitialNames s0 s1 received out h0 hs hres
            · split at hres
              · next hs => exact inv_caseMoreNames s0 s1 received out h0 hs hres
              · split at hres
                · exact inv_caseBarcode s0 s1 received out h0 hres
                · simp only [pure, Except.pure, Except.ok.injEq, Prod.mk.injEq] at hres
                  rw [← hres.1]; exact h0
    · have hd : dispatch s0 received = caseError s0 := by
        simp [dispatch, hstate]
      rw [hd] at hres
      unfold caseError at hres
      split at hres
      · simp only [pure, Except.pure, Except.ok.injEq, Prod.mk.injEq] at hres
        rw [← hres.1]
        exact inv_of_fields s _ h (Or.inr (Or.inl rfl)) hcount hnum hptr
      · simp only [pure, Except.pure, Except.ok.injEq, Prod.mk.injEq] at hres
        rw [← hres.1]
        exact inv_of_fields s _ h (Or.inr (Or.inl rfl)) hcount hnum hptr
      · simp at hres

theorem inv_step (s s1 : AppState) (e : Event) (out : List Request)
    (h : Inv s) (hres : step s e = .ok (s1, out)) : Inv s1 := by
  cases e with
  | message received => exact inv_app_received_msg s s1 received out h hres
  | select_click row =>
    simp only [step, pure, Except.pure, Except.ok.injEq] at hres
    have := inv_select_click s row h
    rw [hres] at this; exact this
  | select_long_click =>
    simp only [step, pure, Except.pure, Except.ok.injEq] at hres
    have := inv_long_click s h
    rw [hres] at this; exact this
  | draw_row row =>
    simp only [step, pure, Except.pure, Except.ok.injEq] at hres
    have := inv_draw_row s row h
    rw [hres] at this; exact this
  | barcode_window_load =>
    simp only [step, pure, Except.pure, Except.ok.injEq] at hres
    have := inv_load s h
    rw [hres] at this; exact this
  | barcode_window_unload =>
    simp only [step, pure, Except.pure, Except.ok.injEq] at hres
    have := inv_unload s h
    rw [hres] at this; exact this

/-- Every reachable state satisfies the invariant. -/
theorem inv_of_reachable (s : AppState) (h : Reachable s) : Inv s := by
  induction h with
  | init => exact inv_initState
  | step e _ hstep ih => exact inv_step _ _ e _ ih hstep

/-- A run that ends without fault ends in a reachable state. -/
theorem reachable_of_run (es : List Event) :
    ∀ (s s1 : AppState) (out : List Request),
      Reachable s → run s es = .ok (s1, out) → Reachable s1 := by
  induction es with
  | nil =>
    intro s s1 out hs hrun
    simp only [run, pure, Except.pure, Except.ok.injEq, Prod.mk.injEq] at hrun
    rw [← hrun.1]; exact hs
  | cons e es ih =>
    intro s s1 out hs hrun
    unfold run at hrun
    cases hstep : step s e with
    | error f => simp [hstep, bind, Except.bind] at hrun
    | ok r =>
      obtain ⟨s2, o2⟩ := r
      cases hrest : run s2 es with
      | error f => simp [hstep, hrest, bind, Except.bind] at hrun
      | ok r2 =>
        obtain ⟨s3, o3⟩ := r2
        simp only [hstep, hrest, bind, Except.bind, pure, Except.pure, Except.ok.injEq,
          Prod.mk.injEq] at hrun
        rw [← hrun.1]
        exact ih s2 s3 o3 (Reachable.step e hs hstep) hrest

/-- The state a trace leads to is reachable. -/
theorem reachable_stateAfter (es : List Event) : Reachable (stateAfter es) := by
  unfold stateAfter
  split
  · next s out h => exact reachable_of_run es initState s out Reachable.init h
  · exact Reachable.init

/-- C4: `barcodeNameCount ≤ numBarcodes` holds in every reachable state: it holds
in `initState` and every callback (an inbound message in any state, a refresh,
a selection, the drawing of any menu row, the opening and the closing of the
image screen) that ends without fault preserves it, as part of `Inv`. -/
theorem C4_fetched_le_total (s : AppState) (h : Reachable s) :
    s.barcodeNameCount ≤ s.numBarcodes :=
  (inv_of_reachable s h).2.1

/-- C4 (witness): a catalog of 12 entries after the initial fetch and the
drawing of row 10. -/
theorem C4_fetched_le_total_witness :
    Reachable (stateAfter (fetchTrace 12 10 ++ [Event.draw_row 10])) ∧
    (stateAfter (fetchTrace 12 10 ++ [Event.draw_row 10])).barcodeNameCount
      ≤ (stateAfter (fetchTrace 12 10 ++ [Event.draw_row 10])).numBarcodes :=
  ⟨reachable_stateAfter _, C4_fetched_le_total _ (reachable_stateAfter _)⟩

/-! ## The name cache in `STATE_WAITING_BARCODE_NAMES` (C5, C6) -/

/-- C5 (the code departs from the claim): a name reply in
`STATE_WAITING_BARCODE_NAMES` is stored at `nameBuffer[nameBufferPtr]`, and the
cursor is unrelated to the index that was requested.  After a complete initial
fetch of a catalog of 12 the cursor is 10: drawing row 10 requests name 11 and
the reply is written to `nameBuffer[10]`, outside the array, not to slot 1.
When the catalog is then refreshed and three names are fetched again, drawing
row 5 requests name 6; the reply lands in slot 3, and the cell drawn for index 6
(slot 6) still shows the entry of the earlier fetch. -/
theorem C5_reply_stored_at_cursor_not_at_index :
    (mainMenu_draw_row (stateAfter (fetchTrace 12 10)) 10).2
        = [{ req := SEND_BARCODE_NAME, data := 11 }] ∧
    run initState (fetchTrace 12 10 ++ [Event.draw_row 10, Event.message (nameReply [75] [70])])
      = .error (.nameBufferIndex 10) ∧
    (mainMenu_draw_row
        (stateAfter (fetchTrace 12 10 ++ Event.select_long_click :: fetchTrace 12 3)) 5).2
        = [{ req := SEND_BARCODE_NAME, data := 6 }] ∧
    (stateAfter (fetchTrace 12 10 ++ Event.select_long_click :: fetchTrace 12 3
        ++ [Event.draw_row 5])).state = STATE_WAITING_BARCODE_NAMES ∧
    (app_received_msg
        (stateAfter (fetchTrace 12 10 ++ Event.select_long_click :: fetchTrace 12 3
          ++ [Event.draw_row 5]))
        (nameReply [75] [70])).map (fun r => (r.1.nameBuffer.get? 3, drawnCell r.1 6))
      = .ok (some (some [75]), (some [71], some [70])) := by
  decide!

/-- C6 (the code departs from the claim): with a catalog of 11 the initial fetch
fills the ten slots and leaves `nameBufferPtr = 10`; drawing row 10 puts the
engine in `STATE_WAITING_BARCODE_NAMES`, and the next name reply is stored at
`nameBuffer[10]`, one element past the array. -/
theorem C6_write_past_name_cache :
    (stateAfter (fetchTrace 11 10 ++ [Event.draw_row 10])).state = STATE_WAITING_BARCODE_NAMES ∧
    (stateAfter (fetchTrace 11 10 ++ [Event.draw_row 10])).nameBufferPtr = 10 ∧
    app_received_msg (stateAfter (fetchTrace 11 10 ++ [Event.draw_row 10])) (nameReply [75] [70])
      = .error (.nameBufferIndex 10) := by
  decide!

/-! ## The error override (C7) -/

/-- C7: for every prior state and every message with a `BARCODE_ERROR` tuple
holding the string `str`, whatever else the message carries: the message built
is `"ERROR: "` followed by `str`, and the call ends with `error` set, `state`
back at `STATE_NONE`, the message block released, no request sent and every
other variable (counts, cursor, name cache, image buffer) as before. -/
theorem C7_error_reply (s : AppState) (received : Dict) (tuple : Tuple) (str : List Nat)
    (htuple : dict_find received BARCODE_ERROR = some tuple)
    (hstr : tuple.cstring = .ok str) :
    errorPrefix = "ERROR: ".toList.map Char.toNat ∧
    errorCheck s received =
      .ok { s with error := false, msg := MsgPtr.live (errorPrefix ++ str),
                   state := STATE_ERROR } ∧
    app_received_msg s received =
      .ok ({ s with error := true, msg := MsgPtr.freed (errorPrefix ++ str),
                    state := STATE_NONE }, []) := by
  have hcheck : errorCheck s received =
      .ok { s with error := false, msg := MsgPtr.live (errorPrefix ++ str),
                   state := STATE_ERROR } := by
    simp [errorCheck, htuple, hstr, bind, Except.bind, pure, Except.pure]
  refine ⟨by decide, hcheck, ?_⟩
  simp [app_received_msg, hcheck, bind, Except.bind, dispatch, caseError, pure, Except.pure]

/-- C7 (witness): the error `disk full` arriving during an initial fetch. -/
theorem C7_error_reply_witness :
    errorPrefix = "ERROR: ".toList.map Char.toNat ∧
    errorCheck (stateAfter (fetchTrace 3 1))
        [{ key := BARCODE_ERROR, data := [100, 105, 115, 107, 32, 102, 117, 108, 108, 0] }] =
      .ok { stateAfter (fetchTrace 3 1) with
              error := false,
              msg := MsgPtr.live (errorPrefix ++ [100, 105, 115, 107, 32, 102, 117, 108, 108]),
              state := STATE_ERROR } ∧
    app_received_msg (stateAfter (fetchTrace 3 1))
        [{ key := BARCODE_ERROR, data := [100, 105, 115, 107, 32, 102, 117, 108, 108, 0] }] =
      .ok ({ stateAfter (fetchTrace 3 1) with
               error := true,
               msg := MsgPtr.freed (errorPrefix ++ [100, 105, 115, 107, 32, 102, 117, 108, 108]),
               state := STATE_NONE }, []) :=
  C7_error_reply (stateAfter (fetchTrace 3 1))
    [{ key := BARCODE_ERROR, data := [100, 105, 115, 107, 32, 102, 117, 108, 108, 0] }]
    { key := BARCODE_ERROR, data := [100, 105, 115, 107, 32, 102, 117, 108, 108, 0] }
    [100, 105, 115, 107, 32, 102, 117, 108, 108] rfl (by decide)

/-! ## The refresh (C8) -/

/-- C8 (counterexample): after a catalog of 3 was fetched, the refresh leaves
`barcodeNameCount = 3`, not 0. -/
theorem C8_refresh_keeps_fetched_count :
    (stateAfter (fetchTrace 3 3)).state = STATE_NONE ∧
    (mainMenu_select_long_click (stateAfter (fetchTrace 3 3))).1.barcodeNameCount = 3 ∧
    (mainMenu_select_long_click (stateAfter (fetchTrace 3 3))).1.numBarcodes = 3 := by
  decide!

/-- C8 (amended): from every state the refresh sets `state` to
`STATE_WAITING_BARCODE_LIST_LENGTH`, the write cursor to 0 and `justSelected`
to -1, sends exactly one list-length request carrying the version 30, and
leaves `barcodeNameCount`, `numBarcodes` and everything else as they were. -/
theorem C8_refresh (s : AppState) :
    mainMenu_select_long_click s =
      ({ s with justSelected := -1, nameBufferPtr := 0,
                state := STATE_WAITING_BARCODE_LIST_LENGTH },
       [{ req := REQUEST_BARCODE_LIST_LENGTH, data := WATCHAPP_VERSION_NUMBER }]) ∧
    (mainMenu_select_long_click s).1.state = STATE_WAITING_BARCODE_LIST_LENGTH ∧
    (mainMenu_select_long_click s).1.nameBufferPtr = 0 ∧
    (mainMenu_select_long_click s).1.barcodeNameCount = s.barcodeNameCount ∧
    (mainMenu_select_long_click s).1.numBarcodes = s.numBarcodes :=
  ⟨rfl, rfl, rfl, rfl, rfl⟩

/-! ## Unmatched messages (C9) and the implicit refresh (C10) -/

/-- C9 (counterexample): in `STATE_RECEIVING_BARCODE` a message with no error,
announcement, row-chunk or completion tuple is not ignored: `state` becomes
`STATE_NONE`. -/
theorem C9_unmatched_message_ends_transfer :
    (stateAfter [Event.message (lengthReply 255), Event.barcode_window_load]).state
      = STATE_RECEIVING_BARCODE ∧
    Unmatched (stateAfter [Event.message (lengthReply 255), Event.barcode_window_load])
      otherMessage ∧
    (app_received_msg (stateAfter [Event.message (lengthReply 255), Event.barcode_window_load])
        otherMessage).map (fun r => (r.1.state, r.2))
      = .ok (STATE_NONE, []) := by
  decide!

/-- C9 (amended): in every reachable state, a message with no error tuple and
none of the tuples looked up in that state sends no request and changes neither
the counts, the name cache nor the image buffer; `state` is unchanged in
`STATE_NONE`, `STATE_WAITING_BARCODE_LIST_LENGTH` and
`STATE_RECEIVING_INITIAL_BARCODE_NAMES`, and becomes `STATE_NONE` in
`STATE_RECEIVING_BARCODE`. -/
theorem C9_unmatched_message (s : AppState) (received : Dict)
    (hreach : Reachable s) (h : Unmatched s received) :
    app_received_msg s received =
      .ok ({ s with error := false,
                    state := if s.state = STATE_RECEIVING_BARCODE then STATE_NONE else s.state },
           []) := by
  obtain ⟨herr, hnone, hlen, hinit, himg, hmore⟩ := h
  obtain ⟨-, -, -, -, -, hstate, -⟩ := inv_of_reachable s hreach
  rw [app_received_msg_no_error s received herr]
  rcases hstate with hs | hs | hs | hs | hs
  · obtain ⟨h1, h2⟩ := hnone hs
    simp [dispatch, hs, caseNone, h1, h2, pure, Except.pure]
  · have h1 := hlen hs
    simp [dispatch, hs, caseListLength, h1, pure, Except.pure]
  · exact (hmore hs).elim
  · have h1 := hinit hs
    simp [dispatch, hs, caseInitialNames, h1, pure, Except.pure]
  · obtain ⟨h1, h2, h3⟩ := himg hs
    simp [dispatch, hs, caseBarcode, h1, h2, h3, pure, Except.pure]

/-- C9 (witness): a name reply arriving while the length is awaited. -/
theorem C9_unmatched_message_witness :
    app_received_msg initState (nameReply [75] [70]) =
      .ok ({ initState with
               error := false,
               state := if initState.state = STATE_RECEIVING_BARCODE then STATE_NONE
                        else initState.state },
           []) :=
  C9_unmatched_message initState (nameReply [75] [70]) Reachable.init (by decide)

/-- C10 (the code departs from the claim): in `STATE_WAITING_BARCODE_NAMES` a
message without a name tuple resets the cursor and sends the list-length
request, but the call ends in `STATE_NONE`, not in
`STATE_WAITING_BARCODE_LIST_LENGTH`; the length reply that follows is ignored
(`numBarcodes` stays 12, `barcodeNameCount` stays 10). -/
theorem C10_implicit_refresh_ends_idle :
    (stateAfter (fetchTrace 12 10 ++ [Event.draw_row 10])).state = STATE_WAITING_BARCODE_NAMES ∧
    (app_received_msg (stateAfter (fetchTrace 12 10 ++ [Event.draw_row 10])) otherMessage).map
        (fun r => (r.1.state, r.1.nameBufferPtr, r.2))
      = .ok (STATE_NONE, 0,
          [{ req := REQUEST_BARCODE_LIST_LENGTH, data := WATCHAPP_VERSION_NUMBER }]) ∧
    (run (stateAfter (fetchTrace 12 10 ++ [Event.draw_row 10]))
        [Event.message otherMessage, Event.message (lengthReply 5)]).map
        (fun r => (r.1.state, r.1.numBarcodes, r.1.barcodeNameCount))
      = .ok (STATE_NONE, 12, 10) := by
  decide!

/-! ## Chunk requests during an image transfer (C11) -/

/-- A row chunk handled in `STATE_RECEIVING_BARCODE` sends exactly one request, for its row. -/
theorem rowChunk_step (s s1 : AppState) (received : Dict) (out : List Request)
    (hstate : s.state = STATE_RECEIVING_BARCODE) (hchunk : IsRowChunk received)
    (hres : app_received_msg s received = .ok (s1, out)) :
    out = [{ req := BARCODE_NEXT_CHUNK, data := chunkRow received }] ∧
      s1.state = STATE_RECEIVING_BARCODE := by
  obtain ⟨herr, hann, himg⟩ := hchunk
  obtain ⟨tuple, htuple⟩ := Option.isSome_iff_exists.mp himg
  rw [app_received_msg_no_error s received herr] at hres
  have hd : dispatch { s with error := false } received
      = caseBarcode { s with error := false } received := by
    simp [dispatch, hstate]
  rw [hd] at hres
  cases hb : tuple.bytes with
  | nil => simp [caseBarcode, hann, htuple, hb] at hres
  | cons b0 r0 =>
    cases r0 with
    | nil => simp [caseBarcode, hann, htuple, hb] at hres
    | cons b1 r1 =>
      cases r1 with
      | nil => simp [caseBarcode, hann, htuple, hb] at hres
      | cons b2 payload =>
        have h1 : b1 < 256 := bytes_lt tuple b1 (by simp [hb])
        have h0 : b0 < 256 := bytes_lt tuple b0 (by simp [hb])
        have hrow : chunkRow received = b0 + 256 * b1 := by
          simp [chunkRow, htuple, hb]
        have hreq : send_request BARCODE_NEXT_CHUNK ((b0 + 256 * b1 : Nat) : Int)
            = [{ req := BARCODE_NEXT_CHUNK, data := b0 + 256 * b1 }] := by
          simp only [send_request, toUint16]
          have : ((((b0 + 256 * b1 : Nat) : Int) % 65536).toNat) = b0 + 256 * b1 := by omega
          rw [this]
          rfl
        rw [caseBarcode_row _ received tuple payload b0 b1 b2 hann htuple hb, hreq] at hres
        rw [hrow]
        split at hres
        · cases hm : memcpyImage { s with error := false }
              (((b0 + 256 * b1) * b2 : Nat) : Int) tuple with
          | error f =>
            rw [hm] at hres
            simp [Except.map] at hres
          | ok s2 =>
            have hf := memcpyImage_fields _ s2 _ tuple hm
            rw [hm] at hres
            simp only [Except.map, Except.ok.injEq, Prod.mk.injEq] at hres
            refine ⟨hres.2.symm, ?_⟩
            rw [← hres.1, hf]
            exact hstate
        · simp only [Except.ok.injEq, Prod.mk.injEq] at hres
          refine ⟨hres.2.symm, ?_⟩
          rw [← hres.1]
          exact hstate

/-- The completion signal handled in `STATE_RECEIVING_BARCODE`. -/
theorem imageDone_step (s : AppState) (received : Dict)
    (hstate : s.state = STATE_RECEIVING_BARCODE) (hdone : IsImageDone received) :
    app_received_msg s received =
      .ok ({ s with error := false, transferDone := true, state := STATE_NONE }, []) := by
  obtain ⟨herr, hann, himg, hd⟩ := hdone
  obtain ⟨tuple, htuple⟩ := Option.isSome_iff_exists.mp hd
  rw [app_received_msg_no_error s received herr]
  simp [dispatch, hstate, caseBarcode, hann, himg, htuple, pure, Except.pure]

/-- In `STATE_NONE` a message without command and display tuple sends nothing
and leaves the engine in `STATE_NONE`. -/
theorem idle_step (s s1 : AppState) (received : Dict) (out : List Request)
    (hstate : s.state = STATE_NONE) (hnothing : StartsNothing received)
    (hres : app_received_msg s received = .ok (s1, out)) :
    out = [] ∧ s1.state = STATE_NONE := by
  obtain ⟨hcmd, hdisp⟩ := hnothing
  unfold app_received_msg at hres
  cases he : errorCheck s received with
  | error f => simp [he, bind, Except.bind] at hres
  | ok s0 =>
    obtain ⟨hs0, -, -, -⟩ := errorCheck_fields s s0 received he
    simp only [he, bind, Except.bind] at hres
    rcases hs0 with hs0 | ⟨hs0, -⟩
    · rw [hstate] at hs0
      simp only [dispatch, hs0, caseNone, hcmd, hdisp, if_true, pure, Except.pure,
        Except.ok.injEq, Prod.mk.injEq] at hres
      refine ⟨hres.2.symm, ?_⟩
      rw [← hres.1]; exact hs0
    · have hd : dispatch s0 received = caseError s0 := by simp [dispatch, hs0]
      rw [hd] at hres
      unfold caseError at hres
      split at hres
      · simp only [pure, Except.pure, Except.ok.injEq, Prod.mk.injEq] at hres
        refine ⟨hres.2.symm, ?_⟩
        rw [← hres.1]
      · simp only [pure, Except.pure, Except.ok.injEq, Prod.mk.injEq] at hres
        refine ⟨hres.2.symm, ?_⟩
        rw [← hres.1]
      · simp at hres

/-- A run that ends without fault splits into its first callback and the rest. -/
theorem run_cons_inv (s s1 : AppState) (e : Event) (es : List Event) (out : List Request)
    (h : run s (e :: es) = .ok (s1, out)) :
    ∃ s2 o1 o2, step s e = .ok (s2, o1) ∧ run s2 es = .ok (s1, o2) ∧ out = o1 ++ o2 := by
  unfold run at h
  cases hstep : step s e with
  | error f => simp [hstep, bind, Except.bind] at h
  | ok r =>
    obtain ⟨s2, o1⟩ := r
    cases hrest : run s2 es with
    | error f => simp [hstep, hrest, bind, Except.bind] at h
    | ok r2 =>
      obtain ⟨s3, o2⟩ := r2
      simp only [hstep, hrest, bind, Except.bind, pure, Except.pure, Except.ok.injEq,
        Prod.mk.injEq] at h
      exact ⟨s2, o1, o2, rfl, by rw [← h.1]; exact hrest, h.2.symm⟩

/-- Messages that start nothing, processed from `STATE_NONE`, send no request. -/
theorem idle_run (later : List Dict) :
    ∀ (s s1 : AppState) (out : List Request),
      s.state = STATE_NONE → (∀ m ∈ later, StartsNothing m) →
      run s (later.map Event.message) = .ok (s1, out) →
      out = [] ∧ s1.state = STATE_NONE := by
  induction later with
  | nil =>
    intro s s1 out hstate _ hrun
    simp only [List.map_nil, run, pure, Except.pure, Except.ok.injEq, Prod.mk.injEq] at hrun
    exact ⟨hrun.2.symm, by rw [← hrun.1]; exact hstate⟩
  | cons m rest ih =>
    intro s s1 out hstate hall hrun
    obtain ⟨s2, o1, o2, hstep, hrest, hout⟩ := run_cons_inv s s1 _ _ out hrun
    obtain ⟨ho1, hs2⟩ := idle_step s s2 m o1 hstate (hall m (by simp)) hstep
    obtain ⟨ho2, hs1⟩ := ih s2 s1 o2 hs2 (fun m1 hm1 => hall m1 (by simp [hm1])) hrest
    exact ⟨by rw [hout, ho1, ho2]; rfl, hs1⟩

/-- Row chunks processed from `STATE_RECEIVING_BARCODE`: one request per chunk,
and the engine stays in `STATE_RECEIVING_BARCODE`. -/
theorem chunks_run (chunks : List Dict) (rest : List Event) :
    ∀ (s s1 : AppState) (out : List Request),
      s.state = STATE_RECEIVING_BARCODE → (∀ m ∈ chunks, IsRowChunk m) →
      run s (chunks.map Event.message ++ rest) = .ok (s1, out) →
      ∃ s2 out2, run s2 rest = .ok (s1, out2) ∧ s2.state = STATE_RECEIVING_BARCODE ∧
        out = chunks.map (fun m => { req := BARCODE_NEXT_CHUNK, data := chunkRow m }) ++ out2 := by
  induction chunks with
  | nil =>
    intro s s1 out hstate _ hrun
    exact ⟨s, out, hrun, hstate, rfl⟩
  | cons m ms ih =>
    intro s s1 out hstate hall hrun
    obtain ⟨s2, o1, o2, hstep, hrest, hout⟩ := run_cons_inv s s1 _ _ out hrun
    obtain ⟨ho1, hs2⟩ := rowChunk_step s s2 m o1 hstate (hall m (by simp)) hstep
    obtain ⟨s3, o3, hrun3, hs3, ho2⟩ :=
      ih s2 s1 o2 hs2 (fun m1 hm1 => hall m1 (by simp [hm1])) hrest
    exact ⟨s3, o3, hrun3, hs3, by rw [hout, ho1, ho2]; rfl⟩

/-- C11 (counterexample): after the completion signal was processed, a push
`DISPLAY_BARCODE(1)` puts the engine back in `STATE_RECEIVING_BARCODE`, and the
row chunk that follows causes a next-chunk request. -/
theorem C11_new_transfer_after_done :
    (stateAfter selectedTrace).state = STATE_RECEIVING_BARCODE ∧
    IsImageDone imageDone ∧
    (run (stateAfter selectedTrace)
        [Event.message imageDone, Event.message (displayBarcode 1),
         Event.message (rowChunk 0 0 16 (List.replicate 16 0))]).map (fun r => r.2)
      = .ok [{ req := SEND_BARCODE, data := 1 }, { req := BARCODE_NEXT_CHUNK, data := 0 }] := by
  decide!

/-- C11 (amended): from `STATE_RECEIVING_BARCODE`, with no callback other than
messages, each row chunk that is processed causes exactly one next-chunk
request (for its row), and once the completion signal is processed no later
message causes any request, as long as none of them carries a `CMD_KEY` or a
`DISPLAY_BARCODE` tuple (the two ways a message can start a refresh or a new
transfer from `STATE_NONE`). -/
theorem C11_chunk_requests (s s1 : AppState) (chunks later : List Dict) (done : Dict)
    (out : List Request)
    (hstate : s.state = STATE_RECEIVING_BARCODE)
    (hchunks : ∀ m ∈ chunks, IsRowChunk m)
    (hdone : IsImageDone done)
    (hlater : ∀ m ∈ later, StartsNothing m)
    (hrun : run s ((chunks ++ done :: later).map Event.message) = .ok (s1, out)) :
    out = chunks.map (fun m => { req := BARCODE_NEXT_CHUNK, data := chunkRow m }) ∧
      s1.state = STATE_NONE := by
  rw [List.map_append, List.map_cons] at hrun
  obtain ⟨s2, o2, hrun2, hs2, hout⟩ := chunks_run chunks _ s s1 out hstate hchunks hrun
  obtain ⟨s3, o3, o4, hstep, hrest, ho2⟩ := run_cons_inv s2 s1 _ _ o2 hrun2
  have hd := imageDone_step s2 done hs2 hdone
  simp only [step] at hstep
  rw [hd] at hstep
  simp only [Except.ok.injEq, Prod.mk.injEq] at hstep
  obtain ⟨ho4, hs1⟩ := idle_run later s3 s1 o4 (by rw [← hstep.1]) hlater hrest
  refine ⟨?_, hs1⟩
  rw [hout, ho2, ← hstep.2, ho4]
  simp

/-- C11 (witness): two row chunks, the completion signal, then a late row chunk
and an unrelated message. -/
theorem C11_chunk_requests_witness :
    [({ req := BARCODE_NEXT_CHUNK, data := 0 } : Request), { req := BARCODE_NEXT_CHUNK, data := 1 }]
      = [rowChunk 0 0 16 (List.replicate 16 0), rowChunk 1 0 16 (List.replicate 16 0)].map
          (fun m => { req := BARCODE_NEXT_CHUNK, data := chunkRow m }) ∧
    (stateAfter (selectedTrace ++
        ([rowChunk 0 0 16 (List.replicate 16 0), rowChunk 1 0 16 (List.replicate 16 0)]
          ++ imageDone :: [rowChunk 2 0 16 (List.replicate 16 0), otherMessage]).map
          Event.message)).state = STATE_NONE :=
  C11_chunk_requests (stateAfter selectedTrace)
    (stateAfter (selectedTrace ++
        ([rowChunk 0 0 16 (List.replicate 16 0), rowChunk 1 0 16 (List.replicate 16 0)]
          ++ imageDone :: [rowChunk 2 0 16 (List.replicate 16 0), otherMessage]).map
          Event.message))
    [rowChunk 0 0 16 (List.replicate 16 0), rowChunk 1 0 16 (List.replicate 16 0)]
    [rowChunk 2 0 16 (List.replicate 16 0), otherMessage] imageDone
    [{ req := BARCODE_NEXT_CHUNK, data := 0 }, { req := BARCODE_NEXT_CHUNK, data := 1 }]
    (by decide!) (by decide) (by decide) (by decide) (by decide!)

/-! ## Replies to the length request and pushes from the device (C12, C14, C16) -/

/-- The byte read by `tuple->value->uint8` is below 256. -/
theorem uint8_lt (t : Tuple) (v : Nat) (h : t.uint8 = .ok v) : v < 256 := by
  unfold Tuple.uint8 at h
  split at h
  · next b0 rest hb =>
    simp only [Except.ok.injEq] at h
    subst h
    exact bytes_lt t b0 (by simp [hb])
  · simp at h

/-- The integer read by `tuple->value->uint16` is below 65536. -/
theorem uint16_lt (t : Tuple) (v : Nat) (h : t.uint16 = .ok v) : v < 65536 := by
  unfold Tuple.uint16 at h
  split at h
  · next b0 b1 rest hb =>
    simp only [Except.ok.injEq] at h
    subst h
    have h0 := bytes_lt t b0 (by simp [hb])
    have h1 := bytes_lt t b1 (by simp [hb])
    omega
  · simp at h

/-- A request whose arguments fit the parameter types is sent as it is. -/
theorem send_request_small (req : Nat) (v : Nat) (hreq : req < 256) (hv : v < 65536) :
    send_request req (v : Int) = [{ req := req, data := v }] := by
  simp only [send_request, toUint16]
  have h1 : (((v : Int) % 65536).toNat) = v := by omega
  have h2 : req % 256 = req := Nat.mod_eq_of_lt hreq
  rw [h1, h2]

/-- C12: in `STATE_WAITING_BARCODE_LIST_LENGTH` a length reply 255 sends exactly
one request, `SEND_BARCODE` with 255, enters `STATE_RECEIVING_BARCODE` and sets
`autoDisplay`; no name request is sent and `numBarcodes`, `barcodeNameCount`
and every other variable are unchanged. -/
theorem C12_display_now (s : AppState) (received : Dict)
    (hstate : s.state = STATE_WAITING_BARCODE_LIST_LENGTH)
    (hreply : IsLengthReply received 255) :
    app_received_msg s received =
      .ok ({ s with error := false, state := STATE_RECEIVING_BARCODE, autoDisplay := 1 },
           [{ req := SEND_BARCODE, data := 255 }]) := by
  obtain ⟨herr, hlen⟩ := hreply
  rw [app_received_msg_no_error s received herr]
  split at hlen
  · next t ht =>
    simp [dispatch, hstate, caseListLength, ht, hlen, bind, Except.bind, pure, Except.pure]
    rfl
  · exact hlen.elim

/-- C12 (witness): the first reply after start is 255. -/
theorem C12_display_now_witness :
    app_received_msg initState (lengthReply 255) =
      .ok ({ initState with error := false, state := STATE_RECEIVING_BARCODE, autoDisplay := 1 },
           [{ req := SEND_BARCODE, data := 255 }]) :=
  C12_display_now initState (lengthReply 255) (by decide) (by decide)

/-- C14: in `STATE_NONE`, a message with a `DISPLAY_BARCODE` tuple holding `N`
and neither an error nor a `CMD_KEY` tuple: if `N < numBarcodes` exactly one
`SEND_BARCODE` request with `N` is sent, `justSelected` becomes `N` and the state
`STATE_RECEIVING_BARCODE`; otherwise nothing is sent and the state stays
`STATE_NONE`. -/
theorem C14_display_barcode (s : AppState) (received : Dict) (tuple : Tuple) (N : Nat)
    (hstate : s.state = STATE_NONE)
    (herr : dict_find received BARCODE_ERROR = none)
    (hcmd : dict_find received CMD_KEY = none)
    (hdisp : dict_find received DISPLAY_BARCODE = some tuple)
    (hN : tuple.uint8 = .ok N) :
    app_received_msg s received =
      .ok (if (N : Int) < s.numBarcodes then
             ({ s with error := false, state := STATE_RECEIVING_BARCODE, justSelected := N },
              [{ req := SEND_BARCODE, data := N }])
           else ({ s with error := false }, [])) := by
  have hlt := uint8_lt tuple N hN
  have hreq := send_request_small SEND_BARCODE N (by decide) (by omega)
  rw [app_received_msg_no_error s received herr]
  by_cases hc : (N : Int) < s.numBarcodes
  · simp [dispatch, hstate, caseNone, hcmd, hdisp, hN, bind, Except.bind, pure, Except.pure,
      hc, hreq]
  · simp [dispatch, hstate, caseNone, hcmd, hdisp, hN, bind, Except.bind, pure, Except.pure,
      hc]

/-- C14 (witness): the device pushes entry 1 of a fetched catalog of 3. -/
theorem C14_display_barcode_witness :
    app_received_msg (stateAfter (fetchTrace 3 3)) (displayBarcode 1) =
      .ok (if ((1 : Nat) : Int) < (stateAfter (fetchTrace 3 3)).numBarcodes then
             ({ stateAfter (fetchTrace 3 3) with
                  error := false, state := STATE_RECEIVING_BARCODE, justSelected := (1 : Nat) },
              [{ req := SEND_BARCODE, data := 1 }])
           else ({ stateAfter (fetchTrace 3 3) with error := false }, [])) :=
  C14_display_barcode (stateAfter (fetchTrace 3 3)) (displayBarcode 1)
    { key := DISPLAY_BARCODE, data := [1] } 1 (by decide) (by decide) (by decide) (by decide)
    (by decide)

/-- C16 (the code departs from the claim): after a catalog of 3 was fetched and
refreshed, the length reply 0 returns to `STATE_NONE` without a request, but
`numBarcodes` and `barcodeNameCount` stay 3 and the menu still has 3 rows. -/
theorem C16_empty_reply_keeps_catalog :
    (stateAfter (fetchTrace 3 3 ++ [Event.select_long_click])).state
      = STATE_WAITING_BARCODE_LIST_LENGTH ∧
    (app_received_msg (stateAfter (fetchTrace 3 3 ++ [Event.select_long_click]))
        (lengthReply 0)).map
        (fun r => (r.1.state, r.2, r.1.numBarcodes, r.1.barcodeNameCount,
                   mainMenu_get_num_rows_in_section r.1))
      = .ok (STATE_NONE, [], 3, 3, 3) := by
  decide!

/-! ## The announcement (C15) -/

/-- C15 (counterexample): an announcement does not blank the buffer.  After a
transfer wrote row 0 and completed, a push starts a second transfer in the open
image screen; after its announcement the first 16 bytes are still the zero
bytes of the earlier row.  The same holds for a second announcement inside one
transfer. -/
theorem C15_announcement_keeps_rows :
    (stateAfter (selectedTrace ++ [Event.message (imageBytes 0 0),
        Event.message (rowChunk 0 0 16 (List.replicate 16 0)), Event.message imageDone,
        Event.message (displayBarcode 1)])).state = STATE_RECEIVING_BARCODE ∧
    (app_received_msg
        (stateAfter (selectedTrace ++ [Event.message (imageBytes 0 0),
          Event.message (rowChunk 0 0 16 (List.replicate 16 0)), Event.message imageDone,
          Event.message (displayBarcode 1)]))
        (imageBytes 0 0)).map (fun r => r.1.barcodeImageData.map (fun image => image.take 16))
      = .ok (some (List.replicate 16 0)) ∧
    (run initState [Event.message (lengthReply 255), Event.barcode_window_load,
        Event.message (imageBytes 0 0), Event.message (rowChunk 0 0 16 (List.replicate 16 0)),
        Event.message (imageBytes 0 0)]).map
        (fun r => r.1.barcodeImageData.map (fun image => image.take 16))
      = .ok (some (List.replicate 16 0)) := by
  decide!

/-- C15 (amended): an announcement processed in `STATE_RECEIVING_BARCODE` sets
`transferDone` to false and `firstRow` to the announced 16-bit value, sends
exactly one next-chunk request carrying that value, stays in
`STATE_RECEIVING_BARCODE` and leaves the image buffer as it is; the buffer is
blanked (2688 bytes `0xFF`) by `barcode_window_load`, when the image screen opens. -/
theorem C15_announcement (s : AppState) (received : Dict) (tuple : Tuple) (v : Nat)
    (hstate : s.state = STATE_RECEIVING_BARCODE)
    (herr : dict_find received BARCODE_ERROR = none)
    (hann : dict_find received BARCODE_IMAGE_BYTES = some tuple)
    (hv : tuple.uint16 = .ok v) :
    app_received_msg s received =
      .ok ({ s with error := false, firstRow := v, transferDone := false },
           [{ req := BARCODE_NEXT_CHUNK, data := v }]) ∧
    (barcode_window_load s).1.barcodeImageData = some (List.replicate 2688 255) := by
  have hlt := uint16_lt tuple v hv
  have hreq := send_request_small BARCODE_NEXT_CHUNK v (by decide) hlt
  rw [app_received_msg_no_error s received herr]
  refine ⟨?_, rfl⟩
  simp [dispatch, hstate, caseBarcode, hann, hv, bind, Except.bind, pure, Except.pure, hreq]

/-- C15 (witness): the announcement of the value 7. -/
theorem C15_announcement_witness :
    app_received_msg receivingState (imageBytes 7 0) =
      .ok ({ receivingState with error := false, firstRow := (7 : Nat), transferDone := false },
           [{ req := BARCODE_NEXT_CHUNK, data := 7 }]) ∧
    (barcode_window_load receivingState).1.barcodeImageData = some (List.replicate 2688 255) :=
  C15_announcement receivingState (imageBytes 7 0) { key := BARCODE_IMAGE_BYTES, data := [7, 0] } 7
    (by decide) (by decide) (by decide) (by decide)

/-! ## Faults of the message handler (C17) -/

/-- C17 (the code departs from the claim): in
`STATE_RECEIVING_INITIAL_BARCODE_NAMES` a name reply without `BARCODE_FORMAT`
tuple makes the handler read `tuple->length` through the `NULL` result of
`dict_find`; in `STATE_RECEIVING_BARCODE` a row chunk of two bytes makes it
read `data[2]` past the payload. -/
theorem C17_message_faults :
    (stateAfter [Event.message (lengthReply 3)]).state = STATE_RECEIVING_INITIAL_BARCODE_NAMES ∧
    app_received_msg (stateAfter [Event.message (lengthReply 3)])
        [{ key := BARCODE_NAME, data := [65, 0] }]
      = .error (.nullTuple BARCODE_FORMAT) ∧
    (stateAfter [Event.message (lengthReply 255), Event.barcode_window_load]).state
      = STATE_RECEIVING_BARCODE ∧
    app_received_msg (stateAfter [Event.message (lengthReply 255), Event.barcode_window_load])
        [{ key := BARCODE_IMAGE, data := [1, 2] }]
      = .error (.payloadRead BARCODE_IMAGE 2) := by
  decide!

/-! ## The auto-display flag (C19) -/

/-- The variables `storeName` leaves alone: all but the two arrays. -/
theorem storeName_frame (s s1 : AppState) (received : Dict) (tuple : Tuple)
    (h : storeName s received tuple = .ok s1) :
    s1 = { s with nameBuffer := s1.nameBuffer, formatBuffer := s1.formatBuffer } := by
  unfold storeName at h
  cases hi : slotIndex s.nameBufferPtr with
  | error f => simp [hi, bind, Except.bind] at h
  | ok i =>
    cases hn : tuple.cstring with
    | error f => simp [hi, hn, bind, Except.bind] at h
    | ok name =>
      simp only [hi, hn, bind, Except.bind] at h
      split at h
      · simp at h
      · next tf htf =>
        cases hf : tf.cstring with
        | error f => simp [hf] at h
        | ok format =>
          simp only [hf, pure, Except.pure, Except.ok.injEq] at h
          rw [← h]

/-- Where `autoDisplay` can change in the switch on `state`: only in the branch
for a length reply 255. -/
theorem autoDisplay_dispatch (s s1 : AppState) (received : Dict) (out : List Request)
    (hres : dispatch s received = .ok (s1, out)) :
    s1.autoDisplay = s.autoDisplay ∨
      (s.state = STATE_WAITING_BARCODE_LIST_LENGTH ∧
        ∃ t, dict_find received REQUEST_BARCODE_LIST_LENGTH = some t ∧ t.uint8 = .ok 255) := by
  unfold dispatch at hres
  split at hres
  · -- STATE_NONE
    left
    unfold caseNone at hres
    split at hres
    · next tuple _ =>
      cases hv : tuple.uint8 with
      | error f => simp [hv, bind, Except.bind] at hres
      | ok value =>
        simp only [hv, bind, Except.bind, pure, Except.pure] at hres
        split at hres
        · simp only [mainMenu_select_long_click, Except.ok.injEq, Prod.mk.injEq] at hres
          rw [← hres.1]
        · simp only [Except.ok.injEq, Prod.mk.injEq] at hres
          rw [← hres.1]
    · split at hres
      · next tuple _ =>
        cases hv : tuple.uint8 with
        | error f => simp [hv, bind, Except.bind] at hres
        | ok value =>
          simp only [hv, bind, Except.bind, pure, Except.pure] at hres
          split at hres
          · simp only [Except.ok.injEq, Prod.mk.injEq] at hres
            rw [← hres.1]
          · simp only [Except.ok.injEq, Prod.mk.injEq] at hres
            rw [← hres.1]
      · simp only [pure, Except.pure, Except.ok.injEq, Prod.mk.injEq] at hres
        rw [← hres.1]
  · split at hres
    · -- STATE_ERROR
      left
      unfold caseError at hres
      split at hres
      · simp only [pure, Except.pure, Except.ok.injEq, Prod.mk.injEq] at hres
        rw [← hres.1]
      · simp only [pure, Except.pure, Except.ok.injEq, Prod.mk.injEq] at hres
        rw [← hres.1]
      · simp at hres
    · split at hres
      · -- STATE_WAITING_BARCODE_LIST_LENGTH
        next hstate =>
        unfold caseListLength at hres
        split at hres
        · next tuple htuple =>
          cases hv : tuple.uint8 with
          | error f => simp [hv, bind, Except.bind] at hres
          | ok value =>
            simp only [hv, bind, Except.bind, pure, Except.pure] at hres
            split at hres
            · left
              simp only [Except.ok.injEq, Prod.mk.injEq] at hres
              rw [← hres.1]
            · split at hres
              · next h255 =>
                right
                exact ⟨hstate, tuple, htuple, by rw [hv, h255]⟩
              · left
                simp only [Except.ok.injEq, Prod.mk.injEq] at hres
                rw [← hres.1]
        · left
          simp only [pure, Except.pure, Except.ok.injEq, Prod.mk.injEq] at hres
          rw [← hres.1]
      · split at hres
        · -- STATE_RECEIVING_INITIAL_BARCODE_NAMES
          left
          unfold caseInitialNames at hres
          split at hres
          · next tuple _ =>
            cases hst : storeName s received tuple with
            | error f => simp [hst, bind, Except.bind] at hres
            | ok s2 =>
              have hf := storeName_frame s s2 received tuple hst
              simp only [hst, bind, Except.bind, pure, Except.pure] at hres
              split at hres
              · simp only [Except.ok.injEq, Prod.mk.injEq] at hres
                rw [← hres.1, hf]
              · simp only [Except.ok.injEq, Prod.mk.injEq] at hres
                rw [← hres.1, hf]
          · simp only [pure, Except.pure, Except.ok.injEq, Prod.mk.injEq] at hres
            rw [← hres.1]
        · split at hres
          · -- STATE_WAITING_BARCODE_NAMES
            left
            unfold caseMoreNames at hres
            split at hres
            · next tuple _ =>
              cases hst : storeName s received tuple with
              | error f => simp [hst, bind, Except.bind] at hres
              | ok s2 =>
                have hf := storeName_frame s s2 received tuple hst
                simp only [hst, bind, Except.bind, pure, Except.pure] at hres
                split at hres
                · simp only [Except.ok.injEq, Prod.mk.injEq] at hres
                  rw [← hres.1, hf]
                · simp only [Except.ok.injEq, Prod.mk.injEq] at hres
                  rw [← hres.1, hf]
            · simp only [mainMenu_select_long_click, bind, Except.bind, pure, Except.pure] at hres
              split at hres
              · simp only [Except.ok.injEq, Prod.mk.injEq] at hres
                rw [← hres.1]
              · simp only [Except.ok.injEq, Prod.mk.injEq] at hres
                rw [← hres.1]
          · split at hres
            · -- STATE_RECEIVING_BARCODE
              left
              unfold caseBarcode at hres
              split at hres
              · next tuple _ =>
                cases hv : tuple.uint16 with
                | error f => simp [hv, bind, Except.bind] at hres
                | ok value =>
                  simp only [hv, bind, Except.bind, pure, Except.pure, Except.ok.injEq,
                    Prod.mk.injEq] at hres
                  rw [← hres.1]
              · split at hres
                · next tuple _ =>
                  split at hres
                  · dsimp only at hres
                    split at hres
                    · simp only [bind, Except.bind] at hres
                      split at hres
                      · simp at hres
                      · next s2 hm =>
                        have hf := memcpyImage_fields s s2 _ tuple hm
                        simp only [pure, Except.pure, Except.ok.injEq, Prod.mk.injEq] at hres
                        rw [← hres.1, hf]
                    · simp only [bind, Except.bind, pure, Except.pure, Except.ok.injEq,
                        Prod.mk.injEq] at hres
                      rw [← hres.1]
                  · simp at hres
                · simp only [pure, Except.pure, Except.ok.injEq, Prod.mk.injEq] at hres
                  rw [← hres.1]
                  split <;> rfl
            · left
              simp only [pure, Except.pure, Except.ok.injEq, Prod.mk.injEq] at hres
              rw [← hres.1]

/-- The switch never runs on the state of a message with an error tuple other
than through `case STATE_ERROR`; the error check itself keeps `autoDisplay`. -/
theorem autoDisplay_message (s s1 : AppState) (received : Dict) (out : List Request)
    (hres : app_received_msg s received = .ok (s1, out)) :
    s1.autoDisplay = s.autoDisplay ∨
      (s.state = STATE_WAITING_BARCODE_LIST_LENGTH ∧ IsLengthReply received 255) := by
  unfold app_received_msg at hres
  cases he : errorCheck s received with
  | error f => simp [he, bind, Except.bind] at hres
  | ok s0 =>
    simp only [he, bind, Except.bind] at hres
    cases hfind : dict_find received BARCODE_ERROR with
    | none =>
      rw [errorCheck_none s received hfind] at he
      simp only [Except.ok.injEq] at he
      rcases autoDisplay_dispatch s0 s1 received out hres with h | ⟨hstate, t, ht, hv⟩
      · left; rw [h, ← he]
      · right
        refine ⟨by rw [← he] at hstate; exact hstate, hfind, ?_⟩
        rw [ht]; exact hv
    | some tuple =>
      left
      unfold errorCheck at he
      simp only [hfind] at he
      cases hc : tuple.cstring with
      | error f => simp [hc, bind, Except.bind] at he
      | ok str =>
        simp only [hc, bind, Except.bind, pure, Except.pure, Except.ok.injEq] at he
        have hd : dispatch s0 received = caseError s0 := by
          rw [← he]; simp [dispatch]
        rw [hd] at hres
        unfold caseError at hres
        split at hres
        · simp only [pure, Except.pure, Except.ok.injEq, Prod.mk.injEq] at hres
          rw [← hres.1, ← he]
        · simp only [pure, Except.pure, Except.ok.injEq, Prod.mk.injEq] at hres
          rw [← hres.1, ← he]
        · simp at hres

/-- C19: closing the image screen with `autoDisplay` set clears the flag, resets
the write cursor, sets `STATE_WAITING_BARCODE_LIST_LENGTH` and sends one
list-length request with version 30; with the flag clear it changes nothing but
the released buffer and sends nothing.  A callback sets the flag only when it
is a length reply 255 processed in `STATE_WAITING_BARCODE_LIST_LENGTH`. -/
theorem C19_close_image_screen (s : AppState) :
    (s.autoDisplay ≠ 0 →
      barcode_window_unload s =
        ({ s with barcodeImageData := none, autoDisplay := 0, justSelected := -1,
                  nameBufferPtr := 0, state := STATE_WAITING_BARCODE_LIST_LENGTH },
         [{ req := REQUEST_BARCODE_LIST_LENGTH, data := WATCHAPP_VERSION_NUMBER }])) ∧
    (s.autoDisplay = 0 →
      barcode_window_unload s = ({ s with barcodeImageData := none }, [])) ∧
    (∀ (e : Event) (s1 : AppState) (out : List Request),
      step s e = .ok (s1, out) → s.autoDisplay = 0 → s1.autoDisplay ≠ 0 →
      ∃ received, e = Event.message received ∧
        s.state = STATE_WAITING_BARCODE_LIST_LENGTH ∧ IsLengthReply received 255) := by
  refine ⟨?_, ?_, ?_⟩
  · intro h
    simp only [barcode_window_unload, h, ne_eq, not_false_eq_true, if_true]
    rfl
  · intro h
    simp [barcode_window_unload, h]
  · intro e s1 out hstep h0 h1
    cases e with
    | message received =>
      rcases autoDisplay_message s s1 received out hstep with h | h
      · exact absurd (h.trans h0) h1
      · exact ⟨received, rfl, h.1, h.2⟩
    | select_click row =>
      exfalso
      simp only [step, pure, Except.pure, Except.ok.injEq] at hstep
      have hs1 : s1 = (mainMenu_select_click s row).1 := by rw [hstep]
      apply h1
      rw [hs1]
      unfold mainMenu_select_click
      split <;> exact h0
    | select_long_click =>
      exfalso
      simp only [step, pure, Except.pure, Except.ok.injEq] at hstep
      have hs1 : s1 = (mainMenu_select_long_click s).1 := by rw [hstep]
      apply h1
      rw [hs1]
      exact h0
    | draw_row row =>
      exfalso
      simp only [step, pure, Except.pure, Except.ok.injEq] at hstep
      have hs1 : s1 = (mainMenu_draw_row s row).1 := by rw [hstep]
      apply h1
      rw [hs1]
      unfold mainMenu_draw_row
      dsimp only
      split
      · exact h0
      · split <;> exact h0
    | barcode_window_load =>
      exfalso
      simp only [step, pure, Except.pure, Except.ok.injEq] at hstep
      have hs1 : s1 = (barcode_window_load s).1 := by rw [hstep]
      apply h1
      rw [hs1]
      exact h0
    | barcode_window_unload =>
      exfalso
      simp only [step, pure, Except.pure, Except.ok.injEq] at hstep
      have hs1 : s1 = (barcode_window_unload s).1 := by rw [hstep]
      apply h1
      rw [hs1]
      unfold barcode_window_unload
      dsimp only
      split
      · rfl
      · exact h0

/-- C19 (witness): the close after an automatic display, and the close after a
selection by the user. -/
theorem C19_close_image_screen_witness :
    barcode_window_unload receivingState =
      ({ receivingState with barcodeImageData := none, autoDisplay := 0, justSelected := -1,
                             nameBufferPtr := 0, state := STATE_WAITING_BARCODE_LIST_LENGTH },
       [{ req := REQUEST_BARCODE_LIST_LENGTH, data := WATCHAPP_VERSION_NUMBER }]) ∧
    barcode_window_unload (stateAfter selectedTrace) =
      ({ stateAfter selectedTrace with barcodeImageData := none }, []) :=
  ⟨(C19_close_image_screen receivingState).1 (by decide),
   (C19_close_image_screen (stateAfter selectedTrace)).2.1 (by decide!)⟩

/-! ## Name requests and the catalog (C20) -/

/-- C20 (the code departs from the claim): with a catalog of 11 and ten names
fetched, the menu has 11 rows; drawing the last one, row 10, sends the name
request for index 11, which is not below `numBarcodes = 11`. -/
theorem C20_request_past_catalog :
    (stateAfter (fetchTrace 11 10)).numBarcodes = 11 ∧
    mainMenu_get_num_rows_in_section (stateAfter (fetchTrace 11 10)) = 11 ∧
    (mainMenu_draw_row (stateAfter (fetchTrace 11 10)) 10).2
      = [{ req := SEND_BARCODE_NAME, data := 11 }] := by
  decide!

/-! ## The requests and the slots of the initial fetch (C13) -/

/-- A zero-terminated string under `key` is read by `cstring` as the bytes before the zero. -/
theorem hasString_cstring (received : Dict) (key : Nat) (h : HasString received key) :
    ∃ t, dict_find received key = some t ∧
      t.cstring = .ok (t.bytes.takeWhile (fun b => b != 0)) := by
  unfold HasString at h
  split at h
  · next t ht => exact ⟨t, ht, by simp [Tuple.cstring, h]⟩
  · exact h.elim

/-- One name reply in `STATE_RECEIVING_INITIAL_BARCODE_NAMES`: the slot written,
the counts and the request sent. -/
theorem initialNames_step_slot (s : AppState) (received : Dict) (c : Nat)
    (hstate : s.state = STATE_RECEIVING_INITIAL_BARCODE_NAMES)
    (hptr : s.nameBufferPtr = c) (hcount : s.barcodeNameCount = c) (hc : c < 10)
    (hreply : IsNameReply received) :
    ∃ s1 out, app_received_msg s received = .ok (s1, out) ∧
      s1.nameBufferPtr = (c + 1 : Nat) ∧ s1.barcodeNameCount = (c + 1 : Nat) ∧
      s1.numBarcodes = s.numBarcodes ∧
      s1.state = (if ((c + 1 : Nat) : Int) = s.numBarcodes ∨ c + 1 = 10 then STATE_NONE
                  else STATE_RECEIVING_INITIAL_BARCODE_NAMES) ∧
      out = (if ((c + 1 : Nat) : Int) = s.numBarcodes ∨ c + 1 = 10 then []
             else [nameRequest (c + 1)]) ∧
      s1.nameBuffer = s.nameBuffer.set c (some (replyName received)) ∧
      s1.formatBuffer = s.formatBuffer.set c (some (replyFormat received)) := by
  obtain ⟨herr, hname, hformat⟩ := hreply
  obtain ⟨tn, htn, hn⟩ := hasString_cstring _ _ hname
  obtain ⟨tf, htf, hf⟩ := hasString_cstring _ _ hformat
  have hrn : replyName received = tn.bytes.takeWhile (fun b => b != 0) := by
    simp [replyName, htn]
  have hrf : replyFormat received = tf.bytes.takeWhile (fun b => b != 0) := by
    simp [replyFormat, htf]
  rw [app_received_msg_no_error s received herr]
  have hd : dispatch { s with error := false } received
      = caseInitialNames { s with error := false } received := by
    simp [dispatch, hstate]
  have hst := storeName_ok { s with error := false } received tn tf _ _
    (by simp [hptr]; omega) hn htf hf
  have h32 : toInt32 ((c : Int) + 1) = ((c + 1 : Nat) : Int) := by unfold toInt32; omega
  have hreq : send_request SEND_BARCODE_NAME ((c + 1 : Nat) : Int) = [nameRequest (c + 1)] :=
    send_request_small SEND_BARCODE_NAME (c + 1) (by decide) (by omega)
  have htoNat : (c : Int).toNat = c := by omega
  rw [hd]
  unfold caseInitialNames
  simp only [htn, hst, bind, Except.bind]
  split
  · next hstop =>
    simp only [hptr, hcount, h32, NAME_BUFFER_SIZE, Nat.cast_ofNat] at hstop
    refine ⟨_, _, rfl, ?_, ?_, rfl, ?_, ?_, ?_, ?_⟩
    · simp [hptr, h32]
    · simp [hcount, h32]
    · rw [if_pos (by omega)]
    · rw [if_pos (by omega)]
    · simp only [hptr, htoNat, hrn]
    · simp only [hptr, htoNat, hrf]
  · next hstop =>
    simp only [hptr, hcount, h32, NAME_BUFFER_SIZE, Nat.cast_ofNat] at hstop
    refine ⟨_, _, rfl, ?_, ?_, rfl, ?_, ?_, ?_, ?_⟩
    · simp [hptr, h32]
    · simp [hcount, h32]
    · rw [if_neg (by omega)]; exact hstate
    · rw [if_neg (by omega)]
      simp only [hptr, h32]
      exact hreq
    · simp only [hptr, htoNat, hrn]
    · simp only [hptr, htoNat, hrf]

/-- The initial fetch from cursor `c`, with the requests sent and the slots written. -/
theorem initialNames_run_slots (L : Nat) (replies : List Dict) :
    ∀ (s : AppState) (c : Nat),
      s.state = STATE_RECEIVING_INITIAL_BARCODE_NAMES →
      s.nameBufferPtr = c → s.barcodeNameCount = c → s.numBarcodes = L →
      c < min L 10 → c + replies.length ≤ min L 10 →
      (∀ m ∈ replies, IsNameReply m) →
      s.nameBuffer.length = 10 → s.formatBuffer.length = 10 →
      ∃ s1 out, run s (replies.map Event.message) = .ok (s1, out) ∧
        s1.nameBufferPtr = (c + replies.length : Nat) ∧
        s1.barcodeNameCount = (c + replies.length : Nat) ∧
        s1.numBarcodes = L ∧
        s1.state = (if c + replies.length = min L 10 then STATE_NONE
                    else STATE_RECEIVING_INITIAL_BARCODE_NAMES) ∧
        out = (List.range' (c + 1)
                (if c + replies.length = min L 10 then replies.length - 1
                 else replies.length)).map nameRequest ∧
        s1.nameBuffer.length = 10 ∧ s1.formatBuffer.length = 10 ∧
        (∀ (j : Nat) (m : Dict), replies[j]? = some m →
          s1.nameBuffer[c + j]? = some (some (replyName m)) ∧
          s1.formatBuffer[c + j]? = some (some (replyFormat m))) ∧
        (∀ i : Nat, i < c →
          s1.nameBuffer[i]? = s.nameBuffer[i]? ∧ s1.formatBuffer[i]? = s.formatBuffer[i]?) := by
  induction replies with
  | nil =>
    intro s c hstate hptr hcount hnum hc _ _ hnl hfl
    refine ⟨s, [], rfl, by simpa using hptr, by simpa using hcount, hnum, ?_, ?_, hnl, hfl,
      ?_, ?_⟩
    · rw [if_neg (by simp; omega)]; exact hstate
    · simp
    · intro j m hj
      simp at hj
    · intro i _
      exact ⟨rfl, rfl⟩
  | cons m rest ih =>
    intro s c hstate hptr hcount hnum hc hlen hall hnl hfl
    simp only [List.length_cons] at hlen
    obtain ⟨s1, o1, hstep, hptr1, hcount1, hnum1, hstate1, hout1, hnb1, hfb1⟩ :=
      initialNames_step_slot s m c hstate hptr hcount (by omega) (hall m (by simp))
    rw [hnum] at hnum1 hstate1 hout1
    have hnl1 : s1.nameBuffer.length = 10 := by rw [hnb1, List.length_set]; exact hnl
    have hfl1 : s1.formatBuffer.length = 10 := by rw [hfb1, List.length_set]; exact hfl
    have hslot : s1.nameBuffer[c]? = some (some (replyName m)) ∧
        s1.formatBuffer[c]? = some (some (replyFormat m)) := by
      rw [hnb1, hfb1]
      exact ⟨List.getElem?_set_self (by omega), List.getElem?_set_self (by omega)⟩
    have hold : ∀ i : Nat, i < c →
        s1.nameBuffer[i]? = s.nameBuffer[i]? ∧ s1.formatBuffer[i]? = s.formatBuffer[i]? := by
      intro i hi
      rw [hnb1, hfb1]
      exact ⟨List.getElem?_set_ne (by omega), List.getElem?_set_ne (by omega)⟩
    by_cases hend : c + 1 = min L 10
    · have hrest : rest = [] := List.eq_nil_of_length_eq_zero (by omega)
      subst hrest
      refine ⟨s1, o1 ++ [], run_cons_ok s s1 s1 _ _ o1 [] hstep rfl, ?_, ?_, hnum1, ?_, ?_,
        hnl1, hfl1, ?_, hold⟩
      · simpa using hptr1
      · simpa using hcount1
      · rw [hstate1, if_pos (by omega), if_pos (by simpa using hend)]
      · rw [hout1, if_pos (by omega), if_pos (by simpa using hend)]
        simp
      · intro j m1 hj
        cases j with
        | zero =>
          simp only [List.getElem?_cons_zero, Option.some.injEq] at hj
          subst hj
          exact hslot
        | succ j => simp at hj
    · obtain ⟨s2, o2, hrun, hptr2, hcount2, hnum2, hstate2, hout2, hnl2, hfl2, hnew2, hold2⟩ :=
        ih s1 (c + 1) (by rw [hstate1, if_neg (by omega)]) hptr1 hcount1 hnum1 (by omega)
          (by omega) (fun m1 hm1 => hall m1 (by simp [hm1])) hnl1 hfl1
      have hlen2 : c + 1 + rest.length = c + (rest.length + 1) := by omega
      refine ⟨s2, o1 ++ o2, run_cons_ok s s1 s2 _ _ o1 o2 hstep hrun, ?_, ?_, hnum2, ?_, ?_,
        hnl2, hfl2, ?_, ?_⟩
      · rw [hptr2]; simp only [List.length_cons]; congr 1
      · rw [hcount2]; simp only [List.length_cons]; congr 1
      · rw [hstate2]
        simp only [List.length_cons]
        rw [hlen2]
      · rw [hout1, if_neg (by omega), hout2]
        simp only [List.length_cons]
        rw [hlen2]
        by_cases hfin : c + (rest.length + 1) = min L 10
        · rw [if_pos hfin, if_pos hfin]
          have hr : rest.length + 1 - 1 = (rest.length - 1) + 1 := by omega
          rw [hr, List.range'_succ]
          rfl
        · rw [if_neg hfin, if_neg hfin, List.range'_succ]
          rfl
      · intro j m1 hj
        cases j with
        | zero =>
          simp only [List.getElem?_cons_zero, Option.some.injEq] at hj
          subst hj
          obtain ⟨h1, h2⟩ := hold2 c (by omega)
          rw [Nat.add_zero, h1, h2]
          exact hslot
        | succ j =>
          simp only [List.getElem?_cons_succ] at hj
          have := hnew2 j m1 hj
          have hidx : c + (j + 1) = c + 1 + j := by omega
          rw [hidx]
          exact this
      · intro i hi
        obtain ⟨h1, h2⟩ := hold2 i (by omega)
        obtain ⟨h3, h4⟩ := hold i hi
        exact ⟨h1.trans h3, h2.trans h4⟩

/-- C13: for every `L` in `1..254`, after a refresh (the two arrays having their
`NAME_BUFFER_SIZE` elements), the length reply `L` and the first `k` name
replies, `k ≤ min L 10`: the requests sent so far are the name requests for
`0, 1, ..., min (k+1) (min L 10) - 1` in that order (the last one carries the
current `barcodeNameCount = k`), reply `j < k` is stored in slot `j` of
`nameBuffer` and `formatBuffer`, and the state is `STATE_NONE` exactly when
`k = min L 10`. -/
theorem C13_initial_requests (L : Nat) (s : AppState) (lengthMsg : Dict) (replies : List Dict)
    (hL : 1 ≤ L ∧ L ≤ 254)
    (hlength : IsLengthReply lengthMsg L)
    (hreplies : ∀ m ∈ replies, IsNameReply m)
    (hcount : replies.length = min L 10)
    (hnames : s.nameBuffer.length = NAME_BUFFER_SIZE)
    (hformats : s.formatBuffer.length = NAME_BUFFER_SIZE) :
    ∀ k, k ≤ min L 10 → ∃ sk outk,
      run (mainMenu_select_long_click s).1
          (Event.message lengthMsg :: (replies.take k).map Event.message) = .ok (sk, outk) ∧
      outk = (List.range (min (k + 1) (min L 10))).map nameRequest ∧
      sk.barcodeNameCount = (k : Nat) ∧
      sk.state = (if k = min L 10 then STATE_NONE else STATE_RECEIVING_INITIAL_BARCODE_NAMES) ∧
      ∀ (j : Nat) (m : Dict), j < k → replies[j]? = some m →
        sk.nameBuffer[j]? = some (some (replyName m)) ∧
        sk.formatBuffer[j]? = some (some (replyFormat m)) := by
  intro k hk
  have hstep := listLength_step (mainMenu_select_long_click s).1 lengthMsg L rfl hL hlength
  generalize hs0 : ({ (mainMenu_select_long_click s).1 with
      error := false, state := STATE_RECEIVING_INITIAL_BARCODE_NAMES,
      numBarcodes := (L : Int), barcodeNameCount := 0 } : AppState) = s0 at hstep
  have hstate0 : s0.state = STATE_RECEIVING_INITIAL_BARCODE_NAMES := by rw [← hs0]
  have hptr0 : s0.nameBufferPtr = (0 : Nat) := by rw [← hs0]; rfl
  have hcount0 : s0.barcodeNameCount = (0 : Nat) := by rw [← hs0]; rfl
  have hnum0 : s0.numBarcodes = L := by rw [← hs0]
  have hnl0 : s0.nameBuffer.length = 10 := by rw [← hs0]; exact hnames
  have hfl0 : s0.formatBuffer.length = 10 := by rw [← hs0]; exact hformats
  have hlk : (replies.take k).length = k := by simp; omega
  obtain ⟨sk, outk, hrun, -, hck, -, hstk, houtk, -, -, hnew, -⟩ :=
    initialNames_run_slots L (replies.take k) s0 0 hstate0 hptr0 hcount0 hnum0 (by omega)
      (by omega) (fun m hm => hreplies m (List.mem_of_mem_take hm)) hnl0 hfl0
  rw [hlk] at hck hstk houtk
  simp only [Nat.zero_add] at hck hstk houtk hnew
  have hreq0 : send_request SEND_BARCODE_NAME 0 = [nameRequest 0] := rfl
  rw [hreq0] at hstep
  refine ⟨sk, _, run_cons_ok _ s0 sk _ _ _ outk hstep hrun, ?_, hck, hstk, ?_⟩
  · rw [houtk]
    by_cases hfin : k = min L 10
    · rw [if_pos hfin]
      have h1 : min (k + 1) (min L 10) = (k - 1) + 1 := by omega
      rw [h1, List.range_eq_range', List.range'_succ]
      rfl
    · rw [if_neg hfin]
      have h1 : min (k + 1) (min L 10) = k + 1 := by omega
      rw [h1, List.range_eq_range', List.range'_succ]
      rfl
  · intro j m hj hm
    exact hnew j m (by rw [List.getElem?_take_of_lt hj]; exact hm)

/-- C13 (witness): `L = 3`: requests 0, 1, 2, slots 0, 1, 2, then `STATE_NONE`
with `barcodeNameCount = 3`. -/
theorem C13_initial_requests_witness :
    (∃ sk outk,
      run (mainMenu_select_long_click mainInit).1
          (Event.message (lengthReply 3) ::
            ([nameReply [65] [70], nameReply [66] [70], nameReply [67] [70]].take 3).map
              Event.message) = .ok (sk, outk) ∧
      outk = (List.range (min (3 + 1) (min 3 10))).map nameRequest ∧
      sk.barcodeNameCount = (3 : Nat) ∧
      sk.state = (if 3 = min 3 10 then STATE_NONE else STATE_RECEIVING_INITIAL_BARCODE_NAMES) ∧
      ∀ (j : Nat) (m : Dict), j < 3 →
        [nameReply [65] [70], nameReply [66] [70], nameReply [67] [70]][j]? = some m →
        sk.nameBuffer[j]? = some (some (replyName m)) ∧
        sk.formatBuffer[j]? = some (some (replyFormat m))) ∧
    (run (mainMenu_select_long_click mainInit).1
        (Event.message (lengthReply 3) ::
          [nameReply [65] [70], nameReply [66] [70], nameReply [67] [70]].map
            Event.message)).map
        (fun r => (r.2, r.1.state, r.1.barcodeNameCount, r.1.nameBuffer.take 3))
      = .ok ([nameRequest 0, nameRequest 1, nameRequest 2], STATE_NONE, 3,
             [some [65], some [66], some [67]]) :=
  ⟨C13_initial_requests 3 mainInit (lengthReply 3)
      [nameReply [65] [70], nameReply [66] [70], nameReply [67] [70]]
      (by decide) (by decide) (by decide) (by decide) (by decide) (by decide) 3 (by decide),
   by decide!⟩

/-! ## The header of a row chunk (C18) -/

/-- C18: for every header `(b0, b1, b2)` of bytes, the row number computed in
`uint16_t` is exactly `b0 + 256 * b1`, the offset computed in 32-bit `int` is
exactly `(b0 + 256 * b1) * b2`, and the row-chunk branch guards and addresses the
`memcpy` with that offset and requests the next chunk with that row number. -/
theorem C18_header_arithmetic (s : AppState) (received : Dict) (tuple : Tuple)
    (b0 b1 b2 : Nat) (payload : List Nat)
    (h0 : b0 < 256) (h1 : b1 < 256) (h2 : b2 < 256)
    (hann : dict_find received BARCODE_IMAGE_BYTES = none)
    (hrow : dict_find received BARCODE_IMAGE = some tuple)
    (hdata : tuple.data = b0 :: b1 :: b2 :: payload) :
    toUint16 ((b0 : Int) + ((b1 <<< 8 : Nat) : Int)) = ((b0 + 256 * b1 : Nat) : Int) ∧
    toInt32 (toUint16 ((b0 : Int) + ((b1 <<< 8 : Nat) : Int)) * (b2 : Int))
      = (((b0 + 256 * b1) * b2 : Nat) : Int) ∧
    caseBarcode s received =
      if (b0 + 256 * b1) * b2 < 2640 then
        (memcpyImage s (((b0 + 256 * b1) * b2 : Nat) : Int) tuple).map
          (fun s1 => (s1, [{ req := BARCODE_NEXT_CHUNK, data := b0 + 256 * b1 }]))
      else .ok (s, [{ req := BARCODE_NEXT_CHUNK, data := b0 + 256 * b1 }]) := by
  have hbytes : tuple.bytes = b0 :: b1 :: b2 :: payload.map (fun b => b % 256) := by
    simp [Tuple.bytes, hdata, Nat.mod_eq_of_lt h0, Nat.mod_eq_of_lt h1, Nat.mod_eq_of_lt h2]
  obtain ⟨hr, ho⟩ := header_arith tuple b0 b1 b2 _ hbytes
  have hreq := send_request_small BARCODE_NEXT_CHUNK (b0 + 256 * b1) (by decide) (by omega)
  refine ⟨hr, ho, ?_⟩
  rw [caseBarcode_row s received tuple _ b0 b1 b2 hann hrow hbytes, hreq]

/-- C18 (witness): the largest header, `(255, 255, 255)`. -/
theorem C18_header_arithmetic_witness :
    toUint16 (((255 : Nat) : Int) + ((255 <<< 8 : Nat) : Int)) = ((255 + 256 * 255 : Nat) : Int) ∧
    toInt32 (toUint16 (((255 : Nat) : Int) + ((255 <<< 8 : Nat) : Int)) * ((255 : Nat) : Int))
      = (((255 + 256 * 255) * 255 : Nat) : Int) ∧
    caseBarcode receivingState (rowChunk 255 255 255 [1]) =
      if (255 + 256 * 255) * 255 < 2640 then
        (memcpyImage receivingState (((255 + 256 * 255) * 255 : Nat) : Int)
            { key := BARCODE_IMAGE, data := [255, 255, 255, 1] }).map
          (fun s1 => (s1, [{ req := BARCODE_NEXT_CHUNK, data := 255 + 256 * 255 }]))
      else .ok (receivingState, [{ req := BARCODE_NEXT_CHUNK, data := 255 + 256 * 255 }]) :=
  C18_header_arithmetic receivingState (rowChunk 255 255 255 [1])
    { key := BARCODE_IMAGE, data := [255, 255, 255, 1] } 255 255 255 [1]
    (by decide) (by decide) (by decide) rfl rfl rfl

end Wyb
